import Mathlib

/-!
# MyEdge-Portfolio: formal model of the per-user state store

Shallow embedding of the core of `src/worker.js` (Cloudflare Worker + a
`UserDurableObject` persisting one JSON record per user identity):

* a JSON value type `JVal` mirroring the JavaScript values the worker
  manipulates (numbers modelled as `Int`: every number the worker stores in
  the record is an integer millisecond timestamp or an integer weather field);
* the Durable Object operations `setData` / `updateData` / `deleteData` /
  `updateBookmarks` with the exact `deepMerge` semantics of the source,
  including JavaScript spread (`{...target}`) and truthiness (`x || {}`)
  behaviour;
* the request handlers `handleGenerate` (existing-record branch),
  `handleGetUser` (slug resolution + freshness-gated weather/news refresh)
  and `handleRefresh`, with upstream calls (GitHub, Workers AI, weather,
  news) passed in as explicit oracle arguments;
* the weather fallback chain `fetchWeather` / `fetchXiaomiWeather`.

`Date.now()` is modelled as a single `now : Int` argument per handler
invocation (the handlers read the clock during one synchronous burst).
-/

set_option maxRecDepth 40000

/-- JSON-compatible JavaScript value as stored/merged by the worker.
Numbers are integers (`Int`): the record only ever holds integer
timestamps and integer weather readings.  Object fields are an ordered
association list, mirroring JS property insertion order. -/
inductive JVal where
  | null : JVal
  | bool : Bool → JVal
  | num : Int → JVal
  | str : String → JVal
  | arr : List JVal → JVal
  | obj : List (String × JVal) → JVal
  deriving Repr

mutual

def JVal.beq : JVal → JVal → Bool
  | .null, .null => true
  | .bool a, .bool b => a == b
  | .num a, .num b => a == b
  | .str a, .str b => a == b
  | .arr a, .arr b => JVal.beqList a b
  | .obj a, .obj b => JVal.beqFields a b
  | _, _ => false

def JVal.beqList : List JVal → List JVal → Bool
  | [], [] => true
  | a :: as, b :: bs => JVal.beq a b && JVal.beqList as bs
  | _, _ => false

def JVal.beqFields : List (String × JVal) → List (String × JVal) → Bool
  | [], [] => true
  | (k, v) :: as, (k', v') :: bs => k == k' && JVal.beq v v' && JVal.beqFields as bs
  | _, _ => false

end

instance : BEq JVal := ⟨JVal.beq⟩

mutual

theorem JVal.beq_iff (a b : JVal) : JVal.beq a b = true ↔ a = b := by
  cases a with
  | null => cases b <;> simp [JVal.beq]
  | bool x => cases b <;> simp [JVal.beq]
  | num x => cases b <;> simp [JVal.beq]
  | str x => cases b <;> simp [JVal.beq]
  | arr xs => cases b <;> simp [JVal.beq] <;> exact JVal.beqList_iff xs _
  | obj fs => cases b <;> simp [JVal.beq] <;> exact JVal.beqFields_iff fs _

theorem JVal.beqList_iff (as bs : List JVal) : JVal.beqList as bs = true ↔ as = bs := by
  cases as with
  | nil => cases bs <;> simp [JVal.beqList]
  | cons a as =>
    cases bs with
    | nil => simp [JVal.beqList]
    | cons b bs => simp [JVal.beqList, JVal.beq_iff a b, JVal.beqList_iff as bs]

theorem JVal.beqFields_iff (as bs : List (String × JVal)) :
    JVal.beqFields as bs = true ↔ as = bs := by
  cases as with
  | nil => cases bs <;> simp [JVal.beqFields]
  | cons a as =>
    cases bs with
    | nil => simp [JVal.beqFields]
    | cons b bs =>
      obtain ⟨k, v⟩ := a
      obtain ⟨k', v'⟩ := b
      simp [JVal.beqFields, JVal.beq_iff v v', JVal.beqFields_iff as bs, Prod.ext_iff,
        and_assoc]

end

instance : DecidableEq JVal := fun a b => decidable_of_iff _ (JVal.beq_iff a b)

instance {ε α : Type} [DecidableEq ε] [DecidableEq α] : DecidableEq (Except ε α) := fun x y =>
  match x, y with
  | .ok a, .ok b => if h : a = b then .isTrue (by rw [h]) else .isFalse (by simp [h])
  | .error a, .error b => if h : a = b then .isTrue (by rw [h]) else .isFalse (by simp [h])
  | .ok _, .error _ => .isFalse (by simp)
  | .error _, .ok _ => .isFalse (by simp)

/-- ASCII lowercasing, the effect of `String.prototype.toLowerCase` on the
GitHub usernames and city names this worker handles (characters outside
A–Z pass through). -/
def lowerChar (c : Char) : Char :=
  match c with
  | 'A' => 'a' | 'B' => 'b' | 'C' => 'c' | 'D' => 'd' | 'E' => 'e' | 'F' => 'f'
  | 'G' => 'g' | 'H' => 'h' | 'I' => 'i' | 'J' => 'j' | 'K' => 'k' | 'L' => 'l'
  | 'M' => 'm' | 'N' => 'n' | 'O' => 'o' | 'P' => 'p' | 'Q' => 'q' | 'R' => 'r'
  | 'S' => 's' | 'T' => 't' | 'U' => 'u' | 'V' => 'v' | 'W' => 'w' | 'X' => 'x'
  | 'Y' => 'y' | 'Z' => 'z'
  | c => c

def sLower (s : String) : String := String.mk (s.data.map lowerChar)

def isSpaceChar (c : Char) : Bool := c = ' ' || c = '\t' || c = '\n' || c = '\r'

/-- `String.prototype.trim` (ordinary whitespace). -/
def sTrim (s : String) : String :=
  String.mk (((s.data.dropWhile isSpaceChar).reverse.dropWhile isSpaceChar).reverse)

example : (JVal.obj [("a", .num 1)]) ≠ JVal.obj [("a", .num 2)] := by decide

/-! ## JavaScript object primitives -/

/-- First-match field lookup: `fields[k]` (JS property read on a plain object;
`none` = `undefined`). -/
def lookupKey (k : String) : List (String × JVal) → Option JVal
  | [] => none
  | (k', v) :: rest => if k' = k then some v else lookupKey k rest

/-- JS property assignment `o[k] = v`: replaces the value of an existing key
in place, appends a fresh key at the end (JS property insertion order). -/
def setKey : List (String × JVal) → String → JVal → List (String × JVal)
  | [], k, v => [(k, v)]
  | (k', v') :: rest, k, v =>
      if k' = k then (k, v) :: rest else (k', v') :: setKey rest k v

/-- JavaScript truthiness on our values: `null`, `false`, `0` and `""` are
falsy; every object and array (even empty) is truthy. -/
def jsFalsy : JVal → Bool
  | .null => true
  | .bool b => !b
  | .num n => n == 0
  | .str s => s == ""
  | _ => false

/-- `x || {}` applied to a property read (`none` = property absent). -/
def orEmptyObj : Option JVal → JVal
  | none => .obj []
  | some v => if jsFalsy v then .obj [] else v

/-- Own enumerable string-keyed entries of a value, as used by both the
spread `{...v}` and `for (key in v)`: objects yield their fields, arrays
yield index/element pairs, strings yield index/character pairs, primitives
yield nothing. -/
def spreadEntries : JVal → List (String × JVal)
  | .obj fs => fs
  | .arr xs => arrEntries 0 xs
  | .str s => strEntries 0 s.data
  | _ => []
where
  arrEntries (i : Nat) : List JVal → List (String × JVal)
    | [] => []
    | x :: rest => (toString i, x) :: arrEntries (i + 1) rest
  strEntries (i : Nat) : List Char → List (String × JVal)
    | [] => []
    | c :: rest => (toString i, .str (String.mk [c])) :: strEntries (i + 1) rest

/-- JS property read `v[k]` (`v.k`); reading a property of `null` throws a
`TypeError`, reading a missing property of anything else yields `undefined`
(`none`). -/
def propOf (v : JVal) (k : String) : Except String (Option JVal) :=
  match v with
  | .null => .error "TypeError"
  | _ => .ok (lookupKey k (spreadEntries v))

/-! ## `deepMerge` (UserDurableObject.deepMerge, worker.js:179-189)

```js
deepMerge(target, source) {
  const result = { ...target };
  for (const key in source) {
    if (source[key] && typeof source[key] === 'object' && !Array.isArray(source[key])) {
      result[key] = this.deepMerge(result[key] || {}, source[key]);
    } else {
      result[key] = source[key];
    }
  }
  return result;
}
```

The recursion guard `source[key] && typeof … === 'object' && !Array.isArray`
holds exactly for our `.obj` constructor (`null` is falsy, arrays excluded).
-/

mutual

def deepMerge (t s : JVal) : JVal :=
  match s with
  | .obj sfs => .obj (mergeFields (spreadEntries t) sfs)
  | .arr xs => .obj (mergeArrFields (spreadEntries t) 0 xs)
  | .str str => .obj ((spreadEntries (.str str)).foldl (fun a kv => setKey a kv.1 kv.2)
      (spreadEntries t))
  | _ => .obj (spreadEntries t)

/-- The `for (const key in source)` loop over an object source, threading the
mutated `result` through as `acc`. -/
def mergeFields (acc : List (String × JVal)) : List (String × JVal) → List (String × JVal)
  | [] => acc
  | (k, sv) :: rest =>
    match sv with
    | .obj sub =>
        mergeFields (setKey acc k (deepMerge (orEmptyObj (lookupKey k acc)) (.obj sub))) rest
    | _ => mergeFields (setKey acc k sv) rest

/-- The same loop when the source is an array (`for…in` enumerates indices). -/
def mergeArrFields (acc : List (String × JVal)) (i : Nat) : List JVal → List (String × JVal)
  | [] => acc
  | x :: rest =>
    match x with
    | .obj sub =>
        mergeArrFields
          (setKey acc (toString i) (deepMerge (orEmptyObj (lookupKey (toString i) acc)) (.obj sub)))
          (i + 1) rest
    | _ => mergeArrFields (setKey acc (toString i) x) (i + 1) rest

end

/-! ## Nested key paths -/

/-- Read a nested key path (a key path descends through object fields only). -/
def getPath : JVal → List String → Option JVal
  | v, [] => some v
  | .obj fs, k :: rest =>
    match lookupKey k fs with
    | some v => getPath v rest
    | none => none
  | _, _ :: _ => none

def distinctKeys : List String → Bool
  | [] => true
  | k :: rest => !(rest.contains k) && distinctKeys rest

mutual

/-- Well-formed JSON document: every object along the tree has pairwise
distinct keys (true of every value that round-trips through `JSON.parse`). -/
def wfJ : JVal → Bool
  | .obj fs => distinctKeys (fs.map Prod.fst) && wfFields fs
  | .arr xs => wfArr xs
  | _ => true

def wfFields : List (String × JVal) → Bool
  | [] => true
  | (_, v) :: rest => wfJ v && wfFields rest

def wfArr : List JVal → Bool
  | [] => true
  | x :: rest => wfJ x && wfArr rest

end

/-- A key path the merge of update payload `ufs` leaves alone: at each level
either the key is absent from the payload, or the payload holds a non-array
object there and the (longer) path stays untouched inside it. -/
def untouched (ufs : List (String × JVal)) : List String → Bool
  | [] => false
  | k :: rest =>
    match lookupKey k ufs with
    | none => true
    | some (.obj sub) => !rest.isEmpty && untouched sub rest
    | some _ => false

/-- `pleads p q`: one of the two paths is a prefix of the other. -/
def pleads : List String → List String → Bool
  | [], _ => true
  | _, [] => true
  | a :: as, b :: bs => a = b && pleads as bs

mutual

/-- All (nonempty) nested key paths of a value. -/
def keyPaths : JVal → List (List String)
  | .obj fs => keyPathsF fs
  | _ => []

def keyPathsF : List (String × JVal) → List (List String)
  | [] => []
  | (k, v) :: rest => [k] :: ((keyPaths v).map (fun p => k :: p) ++ keyPathsF rest)

end

/-- `keyPaths u` is a strict subset of `keyPaths r` (as sets). -/
def strictSubPaths (u r : JVal) : Bool :=
  (keyPaths u).all (fun p => (keyPaths r).contains p) &&
    !((keyPaths r).all (fun p => (keyPaths u).contains p))

/-! ## UserDurableObject operations (worker.js:84-189) -/

/-- `userData.timestamps.updated = now` (worker.js:134/170).  Reading
`.timestamps` of a record that is not an object, or assigning through a
missing/`null`/primitive `timestamps`, throws a `TypeError` in strict mode
(ES modules), which the DO's `fetch` catch turns into a 500 without
touching storage.  (A `timestamps` that is an *array* would accept the
named property in JS; `JVal` cannot carry a named property on an array, so
that never-occurring case is folded into the error branch.) -/
def setTsUpdated (v : JVal) (now : Int) : Except String JVal :=
  match v with
  | .obj fs =>
    match lookupKey "timestamps" fs with
    | some (.obj tfs) =>
        .ok (.obj (setKey fs "timestamps" (.obj (setKey tfs "updated" (.num now)))))
    | _ => .error "TypeError"
  | _ => .error "TypeError"

/-- `updateData` (worker.js:122-141): 404 `'User not found'` when no record
is stored, otherwise deep-merge the payload into the record and stamp
`timestamps.updated = Date.now()`. -/
def updateData (stored : Option JVal) (updates : JVal) (now : Int) : Except String JVal :=
  match stored with
  | none => .error "User not found"
  | some userData => setTsUpdated (deepMerge userData updates) now

/-- The `/update` endpoint as a state transition: `(response, new stored state)`.
Storage is written only on success. -/
def updateDataOp (stored : Option JVal) (updates : JVal) (now : Int) :
    Except String JVal × Option JVal :=
  match updateData stored updates now with
  | .ok r => (.ok r, some r)
  | .error e => (.error e, stored)

/-! ## Configuration constants (worker.js:16-21) -/

def CACHE_TTL_TEXT : Int := 24 * 60 * 60 * 1000
def CACHE_TTL_IMAGE : Int := 7 * 24 * 60 * 60 * 1000
def CACHE_TTL_NEWS : Int := 2 * 60 * 60 * 1000
def CACHE_TTL_WEATHER : Int := 30 * 60 * 1000
def DEFAULT_CITY : String := "Los Angeles"

/-! ## `setData` (worker.js:84-120) -/

/-- `x || d` where `x` is a property read (`none` = `undefined`). -/
def jsOr (x : Option JVal) (d : JVal) : JVal :=
  match x with
  | some v => if jsFalsy v then d else v
  | none => d

/-- Include the key only when the body supplies it (JS stores the key with
`undefined` otherwise; such a key disappears at JSON serialisation and is
never observable). -/
def rawEntry (body : List (String × JVal)) (k : String) : List (String × JVal) :=
  match lookupKey k body with
  | some v => [(k, v)]
  | none => []

/-- `body.k1?.k2` (optional chaining guards only `null`/`undefined`). -/
def optChain (body : List (String × JVal)) (k1 k2 : String) : Option JVal :=
  match lookupKey k1 body with
  | none => none
  | some .null => none
  | some v => lookupKey k2 (spreadEntries v)

/-- The record built by `setData` from the request body: every field is
defaulted with `||`, the timestamps are rebuilt with `created = updated = now`.
Note `setData` performs **no existence check**. -/
def setData (body : List (String × JVal)) (now : Int) : JVal :=
  .obj (rawEntry body "username" ++
    [("city", jsOr (lookupKey "city" body) (.str DEFAULT_CITY)),
     ("interests", jsOr (lookupKey "interests" body) (.arr [])),
     ("userBio", jsOr (lookupKey "userBio" body) (.str ""))] ++
    rawEntry body "slug" ++
    [("github", jsOr (lookupKey "github" body) .null),
     ("repos", jsOr (lookupKey "repos" body) (.arr [])),
     ("aiBio", jsOr (lookupKey "aiBio" body) .null),
     ("aiProjectDescriptions", jsOr (lookupKey "aiProjectDescriptions" body) (.obj [])),
     ("aiQuote", jsOr (lookupKey "aiQuote" body) .null),
     ("aiBackgroundUrl", jsOr (lookupKey "aiBackgroundUrl" body) .null),
     ("aiCardImageUrl", jsOr (lookupKey "aiCardImageUrl" body) .null),
     ("skills", jsOr (lookupKey "skills" body) (.arr [])),
     ("bookmarks", jsOr (lookupKey "bookmarks" body) (.arr [])),
     ("timestamps", .obj [
        ("created", .num now),
        ("updated", .num now),
        ("textGenerated", jsOr (optChain body "timestamps" "textGenerated") (.num now)),
        ("imageGenerated", jsOr (optChain body "timestamps" "imageGenerated") .null),
        ("newsUpdated", jsOr (optChain body "timestamps" "newsUpdated") .null),
        ("weatherUpdated", jsOr (optChain body "timestamps" "weatherUpdated") .null)]),
     ("cachedNews", jsOr (lookupKey "cachedNews" body) .null),
     ("cachedWeather", jsOr (lookupKey "cachedWeather" body) .null)])

/-- The `/set` endpoint as a state transition: it overwrites whatever is
stored, unconditionally, and never fails — the prior state is ignored. -/
def setDataOp (_stored : Option JVal) (body : List (String × JVal)) (now : Int) :
    JVal × Option JVal :=
  (setData body now, some (setData body now))

/-! ## `updateBookmarks` (worker.js:151-177)

Generated id: `Date.now().toString(36) + index` — the clock rendered in
base 36 followed by the decimal array index. -/

def decDigitChar : Nat → Char
  | 0 => '0' | 1 => '1' | 2 => '2' | 3 => '3' | 4 => '4'
  | 5 => '5' | 6 => '6' | 7 => '7' | 8 => '8' | 9 => '9'
  | _ => '?'

def b36DigitChar (d : Nat) : Char :=
  if d < 10 then decDigitChar d else Char.ofNat (87 + d)

/-- Little-endian base-`base` digits, fuel-structured so that concrete
values reduce in the kernel; with `fuel ≥ n` this agrees with
`Nat.digits base n` (proved below for base 10). -/
def digitsRev (base : Nat) : Nat → Nat → List Nat
  | 0, _ => []
  | _, 0 => []
  | fuel + 1, n + 1 => (n + 1) % base :: digitsRev base fuel ((n + 1) / base)

/-- Decimal rendering of a `Nat`, exactly JS string conversion of an index. -/
def decRepr (n : Nat) : String :=
  if n = 0 then "0" else String.mk (((digitsRev 10 n n).map decDigitChar).reverse)

/-- JS `n.toString(36)` for an integer. -/
def toBase36 (n : Int) : String :=
  let go : Nat → String := fun m =>
    if m = 0 then "0" else String.mk (((digitsRev 36 m m).map b36DigitChar).reverse)
  if n < 0 then "-" ++ go n.natAbs else go n.natAbs

/-- `Date.now().toString(36) + index` (worker.js:164). -/
def genId (now : Int) (i : Nat) : String := toBase36 now ++ decRepr i

def optEntry (k : String) (o : Option JVal) : List (String × JVal) :=
  match o with
  | some v => [(k, v)]
  | none => []

/-- One element of the `bookmarks.map` (worker.js:163-169):
`{ id: bm.id || <generated>, name: bm.name, url: bm.url,
   icon: bm.icon || '🔗', order: index }`. -/
def mapBookmark (now : Int) (i : Nat) (bm : JVal) : Except String JVal := do
  let idv ← propOf bm "id"
  let namev ← propOf bm "name"
  let urlv ← propOf bm "url"
  let iconv ← propOf bm "icon"
  .ok (.obj ([("id", jsOr idv (.str (genId now i)))] ++
    optEntry "name" namev ++ optEntry "url" urlv ++
    [("icon", jsOr iconv (.str "🔗")), ("order", .num i)]))

def mapBookmarks (now : Int) (i : Nat) : List JVal → Except String (List JVal)
  | [] => .ok []
  | bm :: rest => do
      let b ← mapBookmark now i bm
      let bs ← mapBookmarks now (i + 1) rest
      .ok (b :: bs)

/-- `updateBookmarks`: replace the whole array with the reindexed map and
stamp `timestamps.updated = now`.  404 when no record is stored. -/
def updateBookmarks (stored : Option JVal) (bookmarks : Option JVal) (now : Int) :
    Except String JVal :=
  match stored with
  | none => .error "User not found"
  | some userData => do
      let bmsIn ← (match bookmarks with
        | none => .ok []
        | some v =>
          if jsFalsy v then .ok []
          else match v with
            | .arr xs => .ok xs
            | _ => .error "TypeError")
      let newBms ← mapBookmarks now 0 bmsIn
      match userData with
      | .obj fs => setTsUpdated (.obj (setKey fs "bookmarks" (.arr newBms))) now
      | _ => .error "TypeError"

/-! ## Freshness checks (worker.js:493-503)

`!userData.cachedX || now - userData.timestamps.xUpdated > CONFIG.CACHE_TTL_X`
-/

/-- JS numeric coercion of a property value as used in `now - x`
(`none` result = `NaN`).  `null` coerces to `0`; `undefined` to `NaN`.
String/array coercion is not modelled: this worker only ever writes numeric
or `null` timestamps. -/
def jsToNum : Option JVal → Option Int
  | none => none
  | some .null => some 0
  | some (.num n) => some n
  | some (.bool b) => some (if b then 1 else 0)
  | some (.str _) => none
  | some (.arr _) => none
  | some (.obj _) => none

def jsFalsyOpt : Option JVal → Bool
  | none => true
  | some v => jsFalsy v

/-- One freshness test, exactly the inline condition of `handleGetUser`:
refetch when the cached value is falsy, or when
`now - timestamps[tsKey] > ttl` (a `NaN` age compares false, hence fresh).
Short-circuiting means `timestamps` is only dereferenced when the cached
value is truthy; a missing or `null` `timestamps` then throws. -/
def staleCat (userData : JVal) (cacheKey tsKey : String) (ttl now : Int) :
    Except String Bool := do
  let cached ← propOf userData cacheKey
  if jsFalsyOpt cached then
    return true
  else
    let ts ← propOf userData "timestamps"
    let tsv ← (match ts with
      | some t => propOf t tsKey
      | none => Except.error "TypeError")
    match jsToNum tsv with
    | some v => return decide (now - v > ttl)
    | none => return false

/-! ## `handleGetUser` (worker.js:471-514) -/

/-- `slug.split('-')[0]`: the slug text before the first hyphen. -/
def firstSeg (s : String) : String := String.mk (s.data.takeWhile (· ≠ '-'))

/-- `{ ...o }` where `o` is a property read (`{ ...undefined } = {}`). -/
def spreadOpt : Option JVal → List (String × JVal)
  | some v => spreadEntries v
  | none => []

def getKeyJ (v : JVal) (k : String) : Option JVal :=
  match v with
  | .obj fs => lookupKey k fs
  | _ => none

/-- `Object.assign(userData, updates)` — a *shallow* merge used only for the
response body (storage receives the deep merge instead). -/
def jsAssign (v : JVal) (us : List (String × JVal)) : JVal :=
  match v with
  | .obj fs => .obj (us.foldl (fun a kv => setKey a kv.1 kv.2) fs)
  | _ => v

/-- `handleGetUser`: resolve the identity as the slug text before the first
hyphen, load that identity's record, 404 unless its `slug` field equals the
requested slug, then refetch whichever of weather/news is stale and push the
collected updates through `/update`.  Returns `(response, new store)`;
`w`/`n` are the fetched weather/news artifacts (total upstream wrappers). -/
def handleGetUser (store : String → Option JVal) (slug : String)
    (w n : JVal) (now : Int) : Except String JVal × (String → Option JVal) :=
  let username := firstSeg slug
  if username = "" then (.error "Invalid slug", store)
  else
    let ident := sLower username
    match store ident with
    | none => (.error "User not found", store)
    | some userData =>
      if getKeyJ userData "slug" ≠ some (.str slug) then
        (.error "User not found", store)
      else
        match staleCat userData "cachedWeather" "weatherUpdated" CACHE_TTL_WEATHER now with
        | .error e => (.error e, store)
        | .ok staleW =>
          let u1 : List (String × JVal) :=
            if staleW then
              setKey (setKey [] "cachedWeather" w) "timestamps"
                (.obj (setKey (spreadOpt (lookupKey "timestamps" ([] : List (String × JVal))))
                  "weatherUpdated" (.num now)))
            else []
          match staleCat userData "cachedNews" "newsUpdated" CACHE_TTL_NEWS now with
          | .error e => (.error e, store)
          | .ok staleN =>
            let u2 : List (String × JVal) :=
              if staleN then
                setKey (setKey u1 "cachedNews" n) "timestamps"
                  (.obj (setKey (spreadOpt (lookupKey "timestamps" u1)) "newsUpdated" (.num now)))
              else u1
            if u2.isEmpty then (.ok userData, store)
            else
              let stored' := (updateDataOp (some userData) (.obj u2) now).2
              (.ok (jsAssign userData u2), fun i => if i = ident then stored' else store i)

/-! ## `generateAllAIContent` (worker.js:1824-1860) and `handleRefresh`
(worker.js:517-584) -/

/-- The joint result of the three `Promise.all`-ed generators
(`generateAIBio`, `generateAIProjectDescriptions`, `generateAIQuote`) plus
the extracted skills. -/
structure AIContent where
  bio : JVal
  projectDescriptions : JVal
  quote : JVal
  skills : JVal
  deriving Repr, DecidableEq

/-- Substring test (`hay.includes(needle)`). -/
def subList (needle : List Char) : List Char → Bool
  | [] => needle.isEmpty
  | c :: rest => needle.isPrefixOf (c :: rest) || subList needle rest

def strIncludes (hay needle : String) : Bool := subList needle.data hay.data

/-- Re-wording applied by the `catch` of `generateAllAIContent` before
rethrowing. -/
def transformAIError (msg : String) : String :=
  if strIncludes msg "model" then
    "AI model error: " ++ msg ++ ". Please check if the model name is correct."
  else if strIncludes msg "binding" then
    "AI binding error: " ++ msg ++ ". Please verify your wrangler.toml configuration."
  else "AI content generation failed: " ++ msg

/-- `generateAllAIContent`: **throws** when the `env.AI` binding is missing
(`ai = none` models an unavailable generative backend), and rethrows any
generation failure; there is no degraded result.  `ai` packages the binding's
presence together with the joint outcome of the three generator calls. -/
def generateAllAIContent (ai : Option (Except String AIContent)) : Except String AIContent :=
  match ai with
  | none => .error "Workers AI is required. Please ensure: 1) AI binding is configured in wrangler.toml with [ai] section, 2) Your Cloudflare account has Workers AI enabled, 3) You have redeployed after adding the binding."
  | some (.ok c) => .ok c
  | some (.error e) => .error (transformAIError e)

/-- `handleRefresh`: regenerate every text category and both caches, then
push one `/update`; a throw out of GitHub fetch or `generateAllAIContent`
escapes uncaught (the Worker's outer catch turns it into a 500 response)
and storage is left untouched.  `github` is the client-supplied or fetched
profile `(user, repos)`; `images` is the `generateAndStoreImages` outcome
used only when `forceAll` and both `AI` and `R2` bindings are live. -/
def handleRefresh (store : String → Option JVal) (username : String)
    (forceAll : Bool) (github : Except String (JVal × JVal))
    (ai : Option (Except String AIContent)) (r2 : Bool)
    (images : JVal × JVal) (news weather : JVal) (now : Int) :
    Except String JVal × (String → Option JVal) :=
  if username = "" then (.error "Username is required", store)
  else
    let ident := sLower username
    match store ident with
    | none => (.error "User not found", store)
    | some userData =>
      match github with
      | .error e => (.error e, store)
      | .ok (ghUser, repos) =>
        match generateAllAIContent ai with
        | .error e => (.error e, store)
        | .ok content =>
          let base : List (String × JVal) :=
            [("github", ghUser), ("repos", repos), ("aiBio", content.bio),
             ("aiProjectDescriptions", content.projectDescriptions),
             ("aiQuote", content.quote), ("skills", content.skills),
             ("cachedNews", news), ("cachedWeather", weather),
             ("timestamps", .obj [("textGenerated", .num now),
               ("newsUpdated", .num now), ("weatherUpdated", .num now)])]
          let updates : List (String × JVal) :=
            if forceAll && ai.isSome && r2 then
              setKey (setKey (setKey base "aiBackgroundUrl" images.1)
                  "aiCardImageUrl" images.2)
                "timestamps" (.obj (setKey (spreadOpt (lookupKey "timestamps" base))
                  "imageGenerated" (.num now)))
            else base
          let stored' := (updateDataOp (some userData) (.obj updates) now).2
          let store' : String → Option JVal := fun i => if i = ident then stored' else store i
          (match store' ident with
           | some r => .ok r
           | none => .ok .null, store')

/-! ## `handleGenerate`, existing-record branch (worker.js:367-396) -/

/-- `${username.toLowerCase()}-${random}` where `random` models
`Math.random().toString(36).substring(2, 8)` (worker.js:3207-3210). -/
def generateSlug (username : String) (rand : String) : String :=
  sLower username ++ "-" ++ rand

inductive GenResult where
  /-- Record already exists: `{ isNew: false, slug: updated.data.slug, data }`. -/
  | updatedExisting (slug : Option JVal) (data : JVal)
  /-- No record yet: the handler continues into the full generation path
  (profile fetch, AI generation, news, weather, `setData`). -/
  | proceedsToCreate
  | errorResp (msg : String)
  deriving Repr, DecidableEq

/-- The routing half of `handleGenerate`: when a record exists the handler
**does not** call `/set`; it sends `{city, interests, userBio}` through
`/update` (JSON serialisation drops absent fields) and answers
`isNew: false`.  Only an absent record proceeds to full generation. -/
def handleGenerate (store : String → Option JVal) (username : String)
    (city interests userBio : Option JVal) (now : Int) :
    GenResult × (String → Option JVal) :=
  if username = "" then (.errorResp "GitHub username is required", store)
  else
    let ident := sLower username
    match store ident with
    | some userData =>
      let payload : JVal :=
        .obj (optEntry "city" city ++ optEntry "interests" interests ++
          optEntry "userBio" userBio)
      match updateData (some userData) payload now with
      | .ok r => (.updatedExisting (getKeyJ r "slug") r,
          fun i => if i = ident then some r else store i)
      | .error _ => (.errorResp "TypeError", store)
    | none => (.proceedsToCreate, store)

/-! ## Weather fallback chain (worker.js:1589-1774) -/

structure WeatherArtifact where
  city : String
  temp : Int
  feels : Int
  humidity : Int
  wind : Int
  desc : String
  icon : String
  source : String
  deriving Repr, DecidableEq

/-- Upstream call outcome: `thrown` models a raised exception (network
failure etc.), `ok` a value produced without throwing. -/
inductive Fetched (α : Type) where
  | ok (a : α)
  | thrown
  deriving Repr, DecidableEq

/-- `INTERNATIONAL_CITIES` (worker.js:1590-1596), verbatim. -/
def INTERNATIONAL_CITIES : List String :=
  ["los angeles", "la", "new york", "nyc", "san francisco", "sf",
   "seattle", "tokyo", "london", "paris", "singapore", "sydney",
   "toronto", "vancouver", "berlin", "dubai", "bangkok", "seoul",
   "洛杉矶", "纽约", "旧金山", "西雅图", "东京", "伦敦", "巴黎",
   "新加坡", "悉尼", "多伦多", "温哥华", "柏林", "迪拜", "曼谷", "首尔"]

def getXiaomiWeatherDesc (weatherCode : Nat) : String :=
  match weatherCode with
  | 0 => "晴" | 1 => "多云" | 2 => "阴" | 3 => "阵雨" | 4 => "雷阵雨"
  | 5 => "雷阵雨并伴有冰雹" | 6 => "雨夹雪" | 7 => "小雨" | 8 => "中雨"
  | 9 => "大雨" | 10 => "暴雨" | 11 => "大暴雨" | 12 => "特大暴雨"
  | 13 => "阵雪" | 14 => "小雪" | 15 => "中雪" | 16 => "大雪" | 17 => "暴雪"
  | 18 => "雾" | 19 => "冻雨" | 20 => "沙尘暴" | 21 => "小雨-中雨"
  | 22 => "中雨-大雨" | 23 => "大雨-暴雨" | 24 => "暴雨-大暴雨"
  | 25 => "大暴雨-特大暴雨" | 26 => "小雪-中雪" | 27 => "中雪-大雪"
  | 28 => "大雪-暴雪" | 29 => "浮沉" | 30 => "扬沙" | 31 => "强沙尘暴"
  | 32 => "飑" | 33 => "龙卷风" | 34 => "若高吹雪" | 35 => "轻雾" | 53 => "霾"
  | 99 => "未知" | _ => "未知"

def getXiaomiWeatherEmoji (code : Nat) : String :=
  if code = 0 then "☀️"
  else if code = 1 then "⛅"
  else if code = 2 then "☁️"
  else if code = 3 || code = 21 then "🌦️"
  else if code = 4 || code = 5 then "⛈️"
  else if code = 6 || code = 19 then "🌨️"
  else if 7 ≤ code && code ≤ 12 then "🌧️"
  else if 22 ≤ code && code ≤ 25 then "🌧️"
  else if code = 13 then "🌨️"
  else if 14 ≤ code && code ≤ 17 then "❄️"
  else if 26 ≤ code && code ≤ 28 then "❄️"
  else if code = 34 then "❄️"
  else if code = 18 || code = 35 then "🌫️"
  else if code = 20 || code = 29 || code = 30 || code = 31 then "🏜️"
  else if code = 32 || code = 33 then "🌪️"
  else if code = 53 then "😷"
  else if code = 99 then "❓"
  else "🌤️"

/-- Parsed `current` block of a Xiaomi response, after the source's
`parseFloat`/`parseInt`/`Math.round` with their `|| '22'`-style defaults
(the oracle supplies the post-parse numbers). -/
structure XiaomiCurrent where
  temperature : Int
  feelsLike : Int
  humidity : Int
  windSpeed : Int
  weatherCode : Nat
  deriving Repr, DecidableEq

/-- `fetchXiaomiWeather` (worker.js:1666-1726): `null` (`ok none`) when the
city is not in the id table, the HTTP status is not ok, or the payload has
no `current`; a network exception propagates (`thrown`); otherwise an
artifact tagged `source: "xiaomi"`.  The city-id table (a ~500-entry static
literal) is abstracted as `cityIds`; the source consults it with the
lowercased-trimmed city first, then the trimmed city.  (The artifact's extra
diagnostic fields — aqi, uv, pressure… — play no role and are omitted.) -/
def fetchXiaomiWeather (cityIds : String → Option String)
    (upstream : Fetched (Option XiaomiCurrent)) (city : String) :
    Fetched (Option WeatherArtifact) :=
  match (match cityIds (sTrim (sLower city)) with
         | some i => some i
         | none => cityIds (sTrim city)) with
  | none => .ok none
  | some _cityId =>
    match upstream with
    | .thrown => .thrown
    | .ok none => .ok none
    | .ok (some cur) =>
      .ok (some
        { city := city
          temp := cur.temperature
          feels := cur.feelsLike
          humidity := cur.humidity
          wind := cur.windSpeed
          desc := getXiaomiWeatherDesc cur.weatherCode
          icon := getXiaomiWeatherEmoji cur.weatherCode
          source := "xiaomi" })

/-- `x || d` on a parsed number (`parseInt(s) || d`: both `NaN` (= `none`)
and `0` fall back). -/
def jsOrInt (x : Option Int) (d : Int) : Int :=
  match x with
  | some v => if v = 0 then d else v
  | none => d

def jsOrStr (x : Option String) (d : String) : String :=
  match x with
  | some s => if s = "" then d else s
  | none => d

def memOpt (c : Option Int) (l : List Int) : Bool :=
  match c with
  | some v => l.contains v
  | none => false

def getWeatherEmojiFromWttr (weatherCode : Option Int) : String :=
  if weatherCode = some 113 then "☀️"
  else if weatherCode = some 116 then "⛅"
  else if weatherCode = some 119 || weatherCode = some 122 then "☁️"
  else if memOpt weatherCode [143, 248, 260] then "🌫️"
  else if memOpt weatherCode [176, 263, 266, 281, 284, 293, 296, 299, 302, 305, 308, 311,
    314, 317, 320, 353, 356, 359, 362, 365] then "🌧️"
  else if memOpt weatherCode [179, 182, 185, 227, 230, 323, 326, 329, 332, 335, 338, 350,
    368, 371, 374, 377] then "❄️"
  else if memOpt weatherCode [200, 386, 389, 392, 395] then "⛈️"
  else "🌤️"

/-- Parsed wttr.in payload: `current_condition[0]` fields after `parseInt`
(`none` = `NaN`) and the nearest-area name. -/
structure WttrData where
  areaName : Option String
  temp_C : Option Int
  feelsLikeC : Option Int
  humidity : Option Int
  windspeedKmph : Option Int
  desc : Option String
  weatherCode : Option Int
  deriving Repr, DecidableEq

/-- `fetchWeather` (worker.js:1606-1664): primary = Xiaomi (skipped for
cities matched against `INTERNATIONAL_CITIES` by two-way substring test,
and its exceptions swallowed), secondary = wttr.in, tertiary = a fixed
static artifact tagged `source: "fallback"`.  Always returns; never
throws. -/
def fetchWeather (cityIds : String → Option String)
    (xiaomiUp : Fetched (Option XiaomiCurrent))
    (wttrUp : Fetched (Option WttrData)) (city : String) : WeatherArtifact :=
  let cityLower := sTrim (sLower city)
  let isInternational := INTERNATIONAL_CITIES.any
    (fun c => strIncludes cityLower c || strIncludes c cityLower)
  let primary : Option WeatherArtifact :=
    if !isInternational then
      match fetchXiaomiWeather cityIds xiaomiUp city with
      | .thrown => none
      | .ok r => r
    else none
  match primary with
  | some wa => wa
  | none =>
    match wttrUp with
    | .ok (some d) =>
      { city := jsOrStr d.areaName city
        temp := jsOrInt d.temp_C 22
        feels := jsOrInt d.feelsLikeC 23
        humidity := jsOrInt d.humidity 50
        wind := jsOrInt d.windspeedKmph 10
        desc := jsOrStr d.desc "晴"
        icon := getWeatherEmojiFromWttr d.weatherCode
        source := "wttr.in" }
    | _ =>
      { city := city
        temp := 22
        feels := 23
        humidity := 50
        wind := 10
        desc := "数据获取中"
        icon := "🌤️"
        source := "fallback" }

/-! ## Lemmas: association-list primitives -/

theorem lookupKey_setKey_self (fs : List (String × JVal)) (k : String) (v : JVal) :
    lookupKey k (setKey fs k v) = some v := by
  induction fs with
  | nil => simp [setKey, lookupKey]
  | cons hd rest ih =>
    obtain ⟨k', v'⟩ := hd
    by_cases h : k' = k
    · subst h; simp [setKey, lookupKey]
    · simp [setKey, lookupKey, h, ih]

theorem lookupKey_setKey_ne (fs : List (String × JVal)) {k k' : String} (v : JVal)
    (h : k' ≠ k) : lookupKey k' (setKey fs k v) = lookupKey k' fs := by
  induction fs with
  | nil => simp [setKey, lookupKey, Ne.symm h]
  | cons hd rest ih =>
    obtain ⟨k₀, v₀⟩ := hd
    by_cases h0 : k₀ = k
    · subst h0
      simp [setKey, lookupKey, Ne.symm h]
    · by_cases h1 : k₀ = k'
      · subst h1; simp [setKey, lookupKey, h0]
      · simp [setKey, lookupKey, h0, h1, ih]

theorem lookupKey_eq_none {k : String} {fs : List (String × JVal)}
    (h : k ∉ fs.map Prod.fst) : lookupKey k fs = none := by
  induction fs with
  | nil => simp [lookupKey]
  | cons hd rest ih =>
    obtain ⟨k', v'⟩ := hd
    simp only [List.map_cons, List.mem_cons] at h
    push_neg at h
    simp [lookupKey, Ne.symm h.1, ih h.2]

theorem distinctKeys_iff (l : List String) : distinctKeys l = true ↔ l.Nodup := by
  induction l with
  | nil => simp [distinctKeys]
  | cons k rest ih =>
    simp [distinctKeys, ih]

/-! ## Lemmas: per-key behaviour of `deepMerge` -/

theorem mergeFields_lookup_none {k : String} {sfs : List (String × JVal)}
    (h : lookupKey k sfs = none) (acc : List (String × JVal)) :
    lookupKey k (mergeFields acc sfs) = lookupKey k acc := by
  induction sfs generalizing acc with
  | nil => simp [mergeFields]
  | cons hd rest ih =>
    obtain ⟨k', sv⟩ := hd
    have hne : k' ≠ k := by
      intro he
      simp [lookupKey, he] at h
    simp only [lookupKey, if_neg hne] at h
    cases sv <;>
      simp [mergeFields, ih h, lookupKey_setKey_ne _ _ (fun he => hne he.symm)]

theorem mergeFields_lookup_obj {k : String} {sfs : List (String × JVal)}
    {sub : List (String × JVal)} (hnd : (sfs.map Prod.fst).Nodup)
    (h : lookupKey k sfs = some (.obj sub)) (acc : List (String × JVal)) :
    lookupKey k (mergeFields acc sfs) =
      some (deepMerge (orEmptyObj (lookupKey k acc)) (.obj sub)) := by
  induction sfs generalizing acc with
  | nil => simp [lookupKey] at h
  | cons hd rest ih =>
    obtain ⟨k', sv⟩ := hd
    simp only [List.map_cons, List.nodup_cons] at hnd
    by_cases hk : k' = k
    · subst hk
      simp only [lookupKey, if_pos rfl] at h
      obtain rfl : sv = JVal.obj sub := by
        cases h; rfl
      have hrest : lookupKey k' rest = none := lookupKey_eq_none hnd.1
      simp [mergeFields, mergeFields_lookup_none hrest, lookupKey_setKey_self]
    · simp only [lookupKey, if_neg hk] at h
      cases sv <;>
        simp [mergeFields, ih hnd.2 h, lookupKey_setKey_ne _ _ (Ne.symm hk)]

theorem mergeFields_lookup_scalar {k : String} {sfs : List (String × JVal)} {sv : JVal}
    (hnd : (sfs.map Prod.fst).Nodup) (h : lookupKey k sfs = some sv)
    (hsv : ∀ sub, sv ≠ .obj sub) (acc : List (String × JVal)) :
    lookupKey k (mergeFields acc sfs) = some sv := by
  induction sfs generalizing acc with
  | nil => simp [lookupKey] at h
  | cons hd rest ih =>
    obtain ⟨k', sv'⟩ := hd
    simp only [List.map_cons, List.nodup_cons] at hnd
    by_cases hk : k' = k
    · subst hk
      simp only [lookupKey, if_pos rfl] at h
      obtain rfl : sv' = sv := by
        cases h; rfl
      have hrest : lookupKey k' rest = none := lookupKey_eq_none hnd.1
      cases sv' with
      | obj sub => exact absurd rfl (hsv sub)
      | null => simp [mergeFields, mergeFields_lookup_none hrest, lookupKey_setKey_self]
      | bool b => simp [mergeFields, mergeFields_lookup_none hrest, lookupKey_setKey_self]
      | num n => simp [mergeFields, mergeFields_lookup_none hrest, lookupKey_setKey_self]
      | str s => simp [mergeFields, mergeFields_lookup_none hrest, lookupKey_setKey_self]
      | arr xs => simp [mergeFields, mergeFields_lookup_none hrest, lookupKey_setKey_self]
    · simp only [lookupKey, if_neg hk] at h
      cases sv' <;>
        simp [mergeFields, ih hnd.2 h, lookupKey_setKey_ne _ _ (Ne.symm hk)]

def isNotObjB : JVal → Bool
  | .obj _ => false
  | _ => true

theorem deepMerge_obj (t : JVal) (sfs : List (String × JVal)) :
    deepMerge t (.obj sfs) = .obj (mergeFields (spreadEntries t) sfs) := by
  simp [deepMerge]

theorem wfJ_obj_nodup {fs : List (String × JVal)} (h : wfJ (.obj fs) = true) :
    (fs.map Prod.fst).Nodup := by
  simp only [wfJ, Bool.and_eq_true] at h
  exact (distinctKeys_iff _).mp h.1

theorem wfFields_lookup {fs : List (String × JVal)} {k : String} {v : JVal}
    (h : wfFields fs = true) (hl : lookupKey k fs = some v) : wfJ v = true := by
  induction fs with
  | nil => simp [lookupKey] at hl
  | cons hd rest ih =>
    obtain ⟨k', v'⟩ := hd
    simp only [wfFields, Bool.and_eq_true] at h
    by_cases hk : k' = k
    · subst hk
      simp only [lookupKey, if_pos rfl] at hl
      cases hl
      exact h.1
    · simp only [lookupKey, if_neg hk] at hl
      exact ih h.2 hl

theorem wfJ_lookup {fs : List (String × JVal)} {k : String} {v : JVal}
    (h : wfJ (.obj fs) = true) (hl : lookupKey k fs = some v) : wfJ v = true := by
  simp only [wfJ, Bool.and_eq_true] at h
  exact wfFields_lookup h.2 hl

/-- Merge preservation: a key path of the target that the update payload
leaves `untouched` reads the same value after `deepMerge`. -/
theorem getPath_merge_untouched :
    ∀ (p : List String) (ufs tfs : List (String × JVal)) (v : JVal),
      wfJ (.obj ufs) = true →
      getPath (.obj tfs) p = some v → untouched ufs p = true →
      getPath (.obj (mergeFields tfs ufs)) p = some v := by
  intro p
  induction p with
  | nil =>
    intro ufs tfs v _ _ hu
    simp [untouched] at hu
  | cons k rest ih =>
    intro ufs tfs v hwf hp hu
    simp only [getPath] at hp
    cases hl : lookupKey k tfs with
    | none => rw [hl] at hp; cases hp
    | some w =>
      rw [hl] at hp
      simp only [untouched] at hu
      cases hu' : lookupKey k ufs with
      | none =>
        simp only [getPath, mergeFields_lookup_none hu' tfs, hl]
        exact hp
      | some uv =>
        rw [hu'] at hu
        cases uv with
        | obj sub =>
          simp only [Bool.and_eq_true] at hu
          have hrest : rest ≠ [] := by
            cases rest with
            | nil => simp at hu
            | cons r rr => simp
          obtain ⟨r, rr, rfl⟩ : ∃ r rr, rest = r :: rr := by
            cases rest with
            | nil => exact absurd rfl hrest
            | cons r rr => exact ⟨r, rr, rfl⟩
          obtain ⟨wfs, rfl⟩ : ∃ wfs, w = .obj wfs := by
            cases w with
            | obj wfs => exact ⟨wfs, rfl⟩
            | null => simp [getPath] at hp
            | bool b => simp [getPath] at hp
            | num n => simp [getPath] at hp
            | str s => simp [getPath] at hp
            | arr xs => simp [getPath] at hp
          have hmerged := mergeFields_lookup_obj (wfJ_obj_nodup hwf) hu' tfs
          rw [hl] at hmerged
          have horE : orEmptyObj (some (JVal.obj wfs)) = .obj wfs := by
            simp [orEmptyObj, jsFalsy]
          rw [horE, deepMerge_obj] at hmerged
          simp only [getPath, hmerged, spreadEntries]
          exact ih sub wfs v (wfJ_lookup hwf hu') hp hu.2
        | null => simp at hu
        | bool b => simp at hu
        | num n => simp at hu
        | str s => simp at hu
        | arr xs => simp at hu

/-- Merge overwrite: a key path of the payload ending in a non-object value
reads exactly that value after `deepMerge`, whatever the target held. -/
theorem getPath_merge_src :
    ∀ (p : List String) (ufs : List (String × JVal)) (v : JVal),
      wfJ (.obj ufs) = true →
      getPath (.obj ufs) p = some v → isNotObjB v = true →
      ∀ tfs, getPath (.obj (mergeFields tfs ufs)) p = some v := by
  intro p
  induction p with
  | nil =>
    intro ufs v _ hp hv
    simp only [getPath, Option.some.injEq] at hp
    subst hp
    simp [isNotObjB] at hv
  | cons k rest ih =>
    intro ufs v hwf hp hv tfs
    simp only [getPath] at hp
    cases hl : lookupKey k ufs with
    | none => rw [hl] at hp; cases hp
    | some w =>
      rw [hl] at hp
      cases rest with
      | nil =>
        simp only [getPath, Option.some.injEq] at hp
        subst hp
        have hns : ∀ sub, w ≠ JVal.obj sub := by
          intro sub he
          subst he
          simp [isNotObjB] at hv
        simp only [getPath,
          mergeFields_lookup_scalar (wfJ_obj_nodup hwf) hl hns tfs]
      | cons r rr =>
        obtain ⟨sub, rfl⟩ : ∃ sub, w = .obj sub := by
          cases w with
          | obj sub => exact ⟨sub, rfl⟩
          | null => simp [getPath] at hp
          | bool b => simp [getPath] at hp
          | num n => simp [getPath] at hp
          | str s => simp [getPath] at hp
          | arr xs => simp [getPath] at hp
        have hmerged := mergeFields_lookup_obj (wfJ_obj_nodup hwf) hl tfs
        rw [deepMerge_obj] at hmerged
        simp only [getPath, hmerged]
        exact ih sub v (wfJ_lookup hwf hl) hp hv _

theorem setTsUpdated_eq {fs tfs : List (String × JVal)} (now : Int)
    (h : lookupKey "timestamps" fs = some (.obj tfs)) :
    setTsUpdated (.obj fs) now =
      .ok (.obj (setKey fs "timestamps" (.obj (setKey tfs "updated" (.num now))))) := by
  simp [setTsUpdated, h]

theorem getPath_bump {fs tfs : List (String × JVal)} (now : Int)
    (h : lookupKey "timestamps" fs = some (.obj tfs)) (p : List String) (v : JVal)
    (hp : getPath (.obj fs) p = some v)
    (hnc : pleads p ["timestamps", "updated"] = false) :
    getPath (.obj (setKey fs "timestamps" (.obj (setKey tfs "updated" (.num now))))) p
      = some v := by
  cases p with
  | nil => simp [pleads] at hnc
  | cons k rest =>
    by_cases hk : k = "timestamps"
    · subst hk
      simp only [getPath, h] at hp
      cases rest with
      | nil => simp [pleads] at hnc
      | cons r rr =>
        have hr : r ≠ "updated" := by
          intro he
          subst he
          cases rr <;> simp [pleads] at hnc
        simp only [getPath, lookupKey_setKey_self, lookupKey_setKey_ne _ _ hr]
        simpa [getPath] using hp
    · simp only [getPath, lookupKey_setKey_ne _ _ hk] at *
      exact hp

theorem getPath_bump_at {fs tfs : List (String × JVal)} (now : Int) :
    getPath (.obj (setKey fs "timestamps" (.obj (setKey tfs "updated" (.num now)))))
      ["timestamps", "updated"] = some (.num now) := by
  simp [getPath, lookupKey_setKey_self]

/-- The update payload holds either no `timestamps` key or an object there
(so the post-merge `timestamps.updated` assignment cannot throw). -/
def tsObjOk (ufs : List (String × JVal)) : Bool :=
  match lookupKey "timestamps" ufs with
  | none => true
  | some (.obj _) => true
  | some _ => false

theorem merged_ts_obj {rfs ufs rtfs : List (String × JVal)}
    (hnd : (ufs.map Prod.fst).Nodup)
    (hts : lookupKey "timestamps" rfs = some (.obj rtfs))
    (hok : tsObjOk ufs = true) :
    ∃ mt, lookupKey "timestamps" (mergeFields rfs ufs) = some (.obj mt) := by
  cases hu : lookupKey "timestamps" ufs with
  | none => exact ⟨rtfs, by rw [mergeFields_lookup_none hu rfs, hts]⟩
  | some uv =>
    cases uv with
    | obj usub =>
      have hm := mergeFields_lookup_obj hnd hu rfs
      rw [hts] at hm
      have horE : orEmptyObj (some (JVal.obj rtfs)) = .obj rtfs := by
        simp [orEmptyObj, jsFalsy]
      rw [horE, deepMerge_obj] at hm
      exact ⟨_, hm⟩
    | null => simp [tsObjOk, hu] at hok
    | bool b => simp [tsObjOk, hu] at hok
    | num n => simp [tsObjOk, hu] at hok
    | str s => simp [tsObjOk, hu] at hok
    | arr xs => simp [tsObjOk, hu] at hok

theorem spreadEntries_obj (fs : List (String × JVal)) : spreadEntries (.obj fs) = fs := rfl

/-- Sample record and payload used by the claim-C1 counterexample. -/
def sampleR1 : List (String × JVal) :=
  [("city", .str "B"), ("slug", .str "bob-abc123"),
   ("timestamps", .obj [("created", .num 0), ("updated", .num 0)])]

def sampleU1 : JVal := .obj [("city", .str "A")]

/-- C1 (counterexample): with record `R = {city: "B", slug: "bob-abc123",
timestamps: {created: 0, updated: 0}}` and payload `U = {city: "A"}` — whose
key paths are a strict subset of `R`'s — the nested key
`timestamps.updated` is *not* present in `U` yet `updateData` at time 5
changes it from 0 to 5: the update operation does not preserve every key of
`R` absent from `U`. -/
theorem C1_counterexample :
    strictSubPaths sampleU1 (.obj sampleR1) = true ∧
    untouched [("city", JVal.str "A")] ["timestamps", "updated"] = true ∧
    getPath (.obj sampleR1) ["timestamps", "updated"] = some (.num 0) ∧
    updateData (some (.obj sampleR1)) sampleU1 5 =
      .ok (.obj [("city", .str "A"), ("slug", .str "bob-abc123"),
        ("timestamps", .obj [("created", .num 0), ("updated", .num 5)])]) ∧
    getPath (.obj [("city", JVal.str "A"), ("slug", .str "bob-abc123"),
        ("timestamps", .obj [("created", .num 0), ("updated", .num 5)])])
      ["timestamps", "updated"] ≠ getPath (.obj sampleR1) ["timestamps", "updated"] := by
  refine ⟨by decide, by decide, by decide, by decide, by decide⟩

/-- C1 (amended): for a record `R` with an object `timestamps` field and a
well-formed update payload `U` whose key paths are a strict subset of `R`'s
(and whose `timestamps`, if present, is an object), `updateData` succeeds
and (i) always sets `timestamps.updated` to the current time; (ii) preserves
every key path of `R` that `U` leaves untouched — i.e. not present in `U`
and not below a non-object (scalar/array) overwrite — other than along
`timestamps.updated`; (iii) overwrites every scalar (non-object) key path
present in `U`, other than along `timestamps.updated`, with `U`'s value. -/
theorem C1_update_merge_frame
    (rfs ufs rtfs : List (String × JVal)) (now : Int)
    (hwfU : wfJ (.obj ufs) = true)
    (hsub : strictSubPaths (.obj ufs) (.obj rfs) = true)
    (hts : lookupKey "timestamps" rfs = some (.obj rtfs))
    (htsu : tsObjOk ufs = true) :
    ∃ R', updateData (some (.obj rfs)) (.obj ufs) now = .ok R' ∧
      getPath R' ["timestamps", "updated"] = some (.num now) ∧
      (∀ p v, getPath (.obj rfs) p = some v → untouched ufs p = true →
        pleads p ["timestamps", "updated"] = false → getPath R' p = some v) ∧
      (∀ p v, getPath (.obj ufs) p = some v → isNotObjB v = true →
        pleads p ["timestamps", "updated"] = false → getPath R' p = some v) := by
  obtain ⟨mt, hmt⟩ := merged_ts_obj (wfJ_obj_nodup hwfU) hts htsu
  have hM : deepMerge (.obj rfs) (.obj ufs) = .obj (mergeFields rfs ufs) := by
    rw [deepMerge_obj, spreadEntries_obj]
  have hupd : updateData (some (.obj rfs)) (.obj ufs) now =
      .ok (.obj (setKey (mergeFields rfs ufs) "timestamps"
        (.obj (setKey mt "updated" (.num now))))) := by
    simp only [updateData, hM]
    exact setTsUpdated_eq now hmt
  refine ⟨_, hupd, getPath_bump_at now, ?_, ?_⟩
  · intro p v hp hu hnc
    exact getPath_bump now hmt p v (getPath_merge_untouched p ufs rfs v hwfU hp hu) hnc
  · intro p v hp hv hnc
    exact getPath_bump now hmt p v (getPath_merge_src p ufs v hwfU hp hv rfs) hnc

/-- C1 witness: the amended theorem applied at the counterexample's inputs,
every hypothesis discharged at the concrete values. -/
theorem C1_witness :
    ∃ R', updateData (some (.obj sampleR1)) (.obj [("city", .str "A")]) 5 = .ok R' ∧
      getPath R' ["timestamps", "updated"] = some (.num 5) ∧
      (∀ p v, getPath (.obj sampleR1) p = some v →
        untouched [("city", .str "A")] p = true →
        pleads p ["timestamps", "updated"] = false → getPath R' p = some v) ∧
      (∀ p v, getPath (.obj [("city", JVal.str "A")]) p = some v → isNotObjB v = true →
        pleads p ["timestamps", "updated"] = false → getPath R' p = some v) :=
  C1_update_merge_frame sampleR1 [("city", .str "A")]
    [("created", .num 0), ("updated", .num 0)] 5
    (by decide) (by decide) (by decide) (by decide)

/-- C2 (counterexample): old value an array, new value a non-array object.
The claim predicts wholesale replacement (`result.k = {a: 1}`); the code
instead recurses with the array as merge base (`result[key] || {}` keeps a
truthy array), so the array's index entries leak into the result. -/
theorem C2_counterexample :
    deepMerge (.obj [("k", .arr [.num 1, .num 2])]) (.obj [("k", .obj [("a", .num 1)])]) =
      .obj [("k", .obj [("0", .num 1), ("1", .num 2), ("a", .num 1)])] ∧
    getPath (deepMerge (.obj [("k", JVal.arr [.num 1, .num 2])])
        (.obj [("k", .obj [("a", .num 1)])])) ["k"] ≠ some (.obj [("a", .num 1)]) := by
  exact ⟨by decide, by decide⟩

/-- C2 (amended): for every key of an update payload, the merge recurses
exactly when the *new* value is a non-array object — regardless of the old
value's type, which enters the recursion as-is when truthy (so an array's or
string's own enumerable entries survive) and as `{}` otherwise; whenever the
new value is a scalar, `null`, or an array, the new value replaces the old
wholesale. -/
theorem C2_merge_per_key (t : JVal) (sfs : List (String × JVal))
    (hnd : (sfs.map Prod.fst).Nodup) (k : String) :
    (∀ sv, lookupKey k sfs = some sv → isNotObjB sv = true →
      getPath (deepMerge t (.obj sfs)) [k] = some sv) ∧
    (∀ sub, lookupKey k sfs = some (.obj sub) →
      getPath (deepMerge t (.obj sfs)) [k] =
        some (deepMerge (orEmptyObj (lookupKey k (spreadEntries t))) (.obj sub))) := by
  constructor
  · intro sv h hsv
    have hns : ∀ sub, sv ≠ JVal.obj sub := by
      intro sub he
      subst he
      simp [isNotObjB] at hsv
    rw [deepMerge_obj]
    simp [getPath, mergeFields_lookup_scalar hnd h hns]
  · intro sub h
    rw [deepMerge_obj]
    simp [getPath, mergeFields_lookup_obj hnd h, deepMerge_obj]

/-- C2 witness: the amended characterisation at a concrete key. -/
theorem C2_witness :
    (∀ sv, lookupKey "k" [("k", JVal.str "x")] = some sv → isNotObjB sv = true →
      getPath (deepMerge (.obj [("k", JVal.arr [.num 7])]) (.obj [("k", .str "x")])) ["k"]
        = some sv) ∧
    (∀ sub, lookupKey "k" [("k", JVal.str "x")] = some (.obj sub) →
      getPath (deepMerge (.obj [("k", JVal.arr [.num 7])]) (.obj [("k", .str "x")])) ["k"]
        = some (deepMerge (orEmptyObj (lookupKey "k"
            (spreadEntries (.obj [("k", JVal.arr [.num 7])])))) (.obj sub))) :=
  C2_merge_per_key (.obj [("k", JVal.arr [.num 7])]) [("k", JVal.str "x")] (by decide) "k"

/-! ## Decimal/base-36 rendering: agreement with `Nat.digits`, injectivity -/

theorem digitsRev_eq_digits : ∀ (fuel n : Nat), n ≤ fuel →
    digitsRev 10 fuel n = Nat.digits 10 n := by
  intro fuel
  induction fuel with
  | zero =>
    intro n hn
    obtain rfl : n = 0 := Nat.le_zero.mp hn
    simp [digitsRev]
  | succ fuel ih =>
    intro n hn
    cases n with
    | zero => simp [digitsRev]
    | succ m =>
      have hdiv : (m + 1) / 10 ≤ fuel := by
        have := Nat.div_lt_self (Nat.succ_pos m) (by norm_num : 1 < 10)
        omega
      rw [Nat.digits_def' (by norm_num : 1 < 10) (Nat.succ_pos m)]
      simp only [digitsRev]
      rw [ih _ hdiv]

theorem map_decDigitChar_inj : ∀ (as bs : List Nat), (∀ a ∈ as, a < 10) →
    (∀ b ∈ bs, b < 10) → as.map decDigitChar = bs.map decDigitChar → as = bs := by
  intro as
  induction as with
  | nil =>
    intro bs _ _ h
    cases bs with
    | nil => rfl
    | cons b bs => simp at h
  | cons a as ih =>
    intro bs ha hb h
    cases bs with
    | nil => simp at h
    | cons b bs =>
      simp only [List.map_cons, List.cons.injEq] at h
      have hinj : ∀ x, x < 10 → ∀ y, y < 10 → decDigitChar x = decDigitChar y → x = y := by
        decide
      have hab : a = b :=
        hinj a (ha a (List.mem_cons_self a as)) b (hb b (List.mem_cons_self b bs)) h.1
      have htl : as = bs :=
        ih bs (fun x hx => ha x (List.mem_cons_of_mem _ hx))
          (fun y hy => hb y (List.mem_cons_of_mem _ hy)) h.2
      rw [hab, htl]

theorem decRepr_digits_ne_zero {n : Nat} (hn : n ≠ 0) :
    decRepr n = String.mk (((Nat.digits 10 n).map decDigitChar).reverse) := by
  rw [decRepr, if_neg hn, digitsRev_eq_digits n n le_rfl]

theorem decRepr_inj : ∀ (m n : Nat), decRepr m = decRepr n → m = n := by
  have key : ∀ (m n : Nat), m ≠ 0 → n ≠ 0 → decRepr m = decRepr n → m = n := by
    intro m n hm hn h
    rw [decRepr_digits_ne_zero hm, decRepr_digits_ne_zero hn] at h
    injection h with h
    have h2 := List.reverse_injective h
    have h3 := map_decDigitChar_inj _ _
      (fun a ha => Nat.digits_lt_base (by norm_num) ha)
      (fun b hb => Nat.digits_lt_base (by norm_num) hb) h2
    have := congrArg (Nat.ofDigits 10) h3
    rwa [Nat.ofDigits_digits, Nat.ofDigits_digits] at this
  have zkey : ∀ (n : Nat), n ≠ 0 → decRepr n ≠ decRepr 0 := by
    intro n hn h
    rw [decRepr_digits_ne_zero hn] at h
    have h0 : decRepr 0 = String.mk ['0'] := by decide
    rw [h0] at h
    injection h with h
    have h2 : (Nat.digits 10 n).map decDigitChar = ['0'] := by
      have := congrArg List.reverse h
      simpa using this
    have h3 : Nat.digits 10 n = [0] :=
      map_decDigitChar_inj _ [0]
        (fun a ha => Nat.digits_lt_base (by norm_num) ha)
        (by simp) (by simpa using h2)
    have := congrArg (Nat.ofDigits 10) h3
    rw [Nat.ofDigits_digits] at this
    simp [Nat.ofDigits] at this
    exact hn this
  intro m n h
  by_cases hm : m = 0
  · by_cases hn : n = 0
    · rw [hm, hn]
    · subst hm
      exact absurd h.symm (zkey n hn)
  · by_cases hn : n = 0
    · subst hn
      exact absurd h (zkey m hm)
    · exact key m n hm hn h

theorem string_append_cancel {a b c : String} (h : a ++ b = a ++ c) : b = c := by
  have hd := congrArg String.data h
  simp only [String.data_append] at hd
  have h2 := List.append_cancel_left hd
  cases b
  cases c
  exact congrArg String.mk h2

/-- Distinct array positions receive distinct generated bookmark ids. -/
theorem genId_inj (now : Int) {i j : Nat} (hij : i ≠ j) : genId now i ≠ genId now j := by
  intro h
  exact hij (decRepr_inj i j (string_append_cancel h))

/-! ## Claim C5: freshness thresholds -/

theorem staleCat_eval {rfs : List (String × JVal)} {cacheKey tsKey : String}
    {cw : JVal} {rtfs : List (String × JVal)} {tv : Int} (ttl now : Int)
    (h1 : lookupKey cacheKey rfs = some cw) (h2 : jsFalsy cw = false)
    (h3 : lookupKey "timestamps" rfs = some (.obj rtfs))
    (h4 : lookupKey tsKey rtfs = some (.num tv)) :
    staleCat (.obj rfs) cacheKey tsKey ttl now = .ok (decide (now - tv > ttl)) := by
  simp [staleCat, propOf, spreadEntries, h1, h2, h3, h4, jsFalsyOpt, jsToNum,
    Bind.bind, Except.bind, pure, Except.pure]

/-- C5 (counterexample): a weather timestamp of exactly `now - 30min` — the
claim's "exact boundary is stale" case — is *not* classified stale: the code
tests `now - ts > ttl` strictly. -/
theorem C5_counterexample :
    staleCat (.obj [("cachedWeather", .obj [("temp", .num 20)]),
        ("timestamps", .obj [("weatherUpdated", .num (1700000000000 - CACHE_TTL_WEATHER))])])
      "cachedWeather" "weatherUpdated" CACHE_TTL_WEATHER 1700000000000 = .ok false ∧
    (Except.ok false : Except String Bool) ≠ .ok true := by
  exact ⟨by decide, by decide⟩

/-- C5 (amended): staleness is strict — a category whose timestamp is
exactly `now - W` is **not** stale, one at `now - W - 1` is; in particular
for weather, age `30min + 1s` is stale and age `29min` is not. -/
theorem C5_freshness_boundary (now : Int) (c : JVal) (hc : jsFalsy c = false)
    (cacheKey tsKey : String) (hck : cacheKey ≠ "timestamps") (ttl : Int)
    (httl : ttl = CACHE_TTL_TEXT ∨ ttl = CACHE_TTL_IMAGE ∨ ttl = CACHE_TTL_NEWS ∨
      ttl = CACHE_TTL_WEATHER) :
    staleCat (.obj [(cacheKey, c), ("timestamps", .obj [(tsKey, .num (now - ttl))])])
      cacheKey tsKey ttl now = .ok false ∧
    staleCat (.obj [(cacheKey, c), ("timestamps", .obj [(tsKey, .num (now - ttl - 1))])])
      cacheKey tsKey ttl now = .ok true ∧
    staleCat (.obj [(cacheKey, c),
        ("timestamps", .obj [(tsKey, .num (now - (CACHE_TTL_WEATHER + 1000)))])])
      cacheKey tsKey CACHE_TTL_WEATHER now = .ok true ∧
    staleCat (.obj [(cacheKey, c), ("timestamps", .obj [(tsKey, .num (now - 29 * 60 * 1000))])])
      cacheKey tsKey CACHE_TTL_WEATHER now = .ok false := by
  have hl1 : ∀ x : JVal, lookupKey cacheKey [(cacheKey, c), ("timestamps", x)] = some c := by
    intro x
    simp [lookupKey]
  have hl2 : ∀ x : JVal, lookupKey "timestamps" [(cacheKey, c), ("timestamps", x)] = some x := by
    intro x
    simp [lookupKey, hck]
  have hl3 : ∀ n : Int, lookupKey tsKey [(tsKey, JVal.num n)] = some (.num n) := by
    intro n
    simp [lookupKey]
  refine ⟨?_, ?_, ?_, ?_⟩
  · rw [staleCat_eval ttl now (hl1 _) hc (hl2 _) (hl3 _)]
    have : ¬(now - (now - ttl) > ttl) := by omega
    simp [this]
  · rw [staleCat_eval ttl now (hl1 _) hc (hl2 _) (hl3 _)]
    have : now - (now - ttl - 1) > ttl := by omega
    simp [this]
  · rw [staleCat_eval CACHE_TTL_WEATHER now (hl1 _) hc (hl2 _) (hl3 _)]
    have hW : CACHE_TTL_WEATHER = 1800000 := by norm_num [CACHE_TTL_WEATHER]
    have : now - (now - (CACHE_TTL_WEATHER + 1000)) > CACHE_TTL_WEATHER := by
      rw [hW]
      omega
    simp [this]
  · rw [staleCat_eval CACHE_TTL_WEATHER now (hl1 _) hc (hl2 _) (hl3 _)]
    have hW : CACHE_TTL_WEATHER = 1800000 := by norm_num [CACHE_TTL_WEATHER]
    have : ¬(now - (now - 29 * 60 * 1000) > CACHE_TTL_WEATHER) := by
      rw [hW]
      omega
    simp [this, hW]

/-- C5 witness: the boundary theorem at a concrete clock, cache object and
the weather window. -/
theorem C5_witness :
    staleCat (.obj [("cachedWeather", .obj []),
        ("timestamps", .obj [("weatherUpdated", .num (1700000000000 - CACHE_TTL_WEATHER))])])
      "cachedWeather" "weatherUpdated" CACHE_TTL_WEATHER 1700000000000 = .ok false ∧
    staleCat (.obj [("cachedWeather", .obj []),
        ("timestamps", .obj [("weatherUpdated", .num (1700000000000 - CACHE_TTL_WEATHER - 1))])])
      "cachedWeather" "weatherUpdated" CACHE_TTL_WEATHER 1700000000000 = .ok true ∧
    staleCat (.obj [("cachedWeather", .obj []),
        ("timestamps", .obj [("weatherUpdated",
          .num (1700000000000 - (CACHE_TTL_WEATHER + 1000)))])])
      "cachedWeather" "weatherUpdated" CACHE_TTL_WEATHER 1700000000000 = .ok true ∧
    staleCat (.obj [("cachedWeather", .obj []),
        ("timestamps", .obj [("weatherUpdated", .num (1700000000000 - 29 * 60 * 1000))])])
      "cachedWeather" "weatherUpdated" CACHE_TTL_WEATHER 1700000000000 = .ok false :=
  C5_freshness_boundary 1700000000000 (.obj []) (by decide) "cachedWeather" "weatherUpdated"
    (by decide) CACHE_TTL_WEATHER (by simp)

theorem getPath_single (fs : List (String × JVal)) (k : String) :
    getPath (.obj fs) [k] = lookupKey k fs := by
  cases h : lookupKey k fs <;> simp [getPath, h]

/-! ## Claims C3 and C4: create-on-existing routing, refresh without AI -/

/-- A one-record store: identity `"bob"` holds `sampleR1`. -/
def sampleStore : String → Option JVal :=
  fun i => if i = "bob" then some (.obj sampleR1) else none

theorem lookupKey_optEntries_other {k : String} (city interests userBio : Option JVal)
    (h1 : k ≠ "city") (h2 : k ≠ "interests") (h3 : k ≠ "userBio") :
    lookupKey k (optEntry "city" city ++ optEntry "interests" interests ++
      optEntry "userBio" userBio) = none := by
  cases city <;> cases interests <;> cases userBio <;>
    simp [optEntry, lookupKey, Ne.symm h1, Ne.symm h2, Ne.symm h3]

/-- C3 (counterexample): identity `"bob"` already holds a record, yet the
generate flow neither fails with any `AlreadyExists`-style error nor leaves
the record alone: it answers `isNew: false` and overwrites `city` (and
`timestamps.updated`) through `/update`. -/
theorem C3_counterexample :
    (handleGenerate sampleStore "bob" (some (.str "A")) none none 5).1 =
      .updatedExisting (some (.str "bob-abc123"))
        (.obj [("city", .str "A"), ("slug", .str "bob-abc123"),
          ("timestamps", .obj [("created", .num 0), ("updated", .num 5)])]) ∧
    (handleGenerate sampleStore "bob" (some (.str "A")) none none 5).2 "bob" =
      some (.obj [("city", .str "A"), ("slug", .str "bob-abc123"),
        ("timestamps", .obj [("created", .num 0), ("updated", .num 5)])]) ∧
    some (JVal.obj [("city", .str "A"), ("slug", .str "bob-abc123"),
        ("timestamps", .obj [("created", .num 0), ("updated", .num 5)])]) ≠
      some (.obj sampleR1) := by
  exact ⟨by decide, by decide, by decide⟩

/-- C3 (amended): for every identity that already has a stored record, the
generate flow performs no create (`/set` is never reached): it routes to a
partial `/update` of `{city, interests, userBio}`, answers `isNew: false`
with the record's existing slug, and preserves every record field that
payload leaves untouched, except the always-stamped `timestamps.updated`.
(The store-level `setData` itself, were it called, performs no existence
check — `setDataOp` ignores the prior state.) -/
theorem C3_generate_routes_to_update
    (store : String → Option JVal) (username : String) (hu : ¬ username = "")
    (city interests userBio : Option JVal)
    (rfs rtfs : List (String × JVal)) (now : Int)
    (hstore : store (sLower username) = some (.obj rfs))
    (hts : lookupKey "timestamps" rfs = some (.obj rtfs))
    (hwfU : wfJ (.obj (optEntry "city" city ++ optEntry "interests" interests ++
      optEntry "userBio" userBio)) = true)
    (slugv : JVal) (hslug : lookupKey "slug" rfs = some slugv) :
    ∃ R', handleGenerate store username city interests userBio now =
        (.updatedExisting (getKeyJ R' "slug") R',
          fun i => if i = sLower username then some R' else store i) ∧
      updateData (some (.obj rfs))
        (.obj (optEntry "city" city ++ optEntry "interests" interests ++
          optEntry "userBio" userBio)) now = .ok R' ∧
      getKeyJ R' "slug" = some slugv ∧
      (∀ p v, getPath (.obj rfs) p = some v →
        untouched (optEntry "city" city ++ optEntry "interests" interests ++
          optEntry "userBio" userBio) p = true →
        pleads p ["timestamps", "updated"] = false → getPath R' p = some v) := by
  have htsu : tsObjOk (optEntry "city" city ++ optEntry "interests" interests ++
      optEntry "userBio" userBio) = true := by
    rw [tsObjOk, lookupKey_optEntries_other city interests userBio
      (by decide) (by decide) (by decide)]
  obtain ⟨mt, hmt⟩ := merged_ts_obj (wfJ_obj_nodup hwfU) hts htsu
  have hM : deepMerge (.obj rfs) (.obj (optEntry "city" city ++
      optEntry "interests" interests ++ optEntry "userBio" userBio)) =
      .obj (mergeFields rfs (optEntry "city" city ++ optEntry "interests" interests ++
        optEntry "userBio" userBio)) := by
    rw [deepMerge_obj, spreadEntries_obj]
  have hupd : updateData (some (.obj rfs))
      (.obj (optEntry "city" city ++ optEntry "interests" interests ++
        optEntry "userBio" userBio)) now =
      .ok (.obj (setKey (mergeFields rfs (optEntry "city" city ++
        optEntry "interests" interests ++ optEntry "userBio" userBio)) "timestamps"
        (.obj (setKey mt "updated" (.num now))))) := by
    simp only [updateData, hM]
    exact setTsUpdated_eq now hmt
  refine ⟨_, ?_, hupd, ?_, ?_⟩
  · simp only [handleGenerate, hu, hstore, hupd]
    simp
  · have hpres : getPath (.obj (setKey (mergeFields rfs (optEntry "city" city ++
        optEntry "interests" interests ++ optEntry "userBio" userBio)) "timestamps"
        (.obj (setKey mt "updated" (.num now))))) ["slug"] = some slugv := by
      apply getPath_bump now hmt
      · apply getPath_merge_untouched _ _ _ _ hwfU
        · simp [getPath, hslug]
        · rw [untouched, lookupKey_optEntries_other city interests userBio
            (by decide) (by decide) (by decide)]
      · decide
    rw [getPath_single] at hpres
    simpa [getKeyJ] using hpres
  · intro p v hp hun hnc
    exact getPath_bump now hmt p v
      (getPath_merge_untouched p _ rfs v hwfU hp hun) hnc

/-- C3 witness: the amended theorem at the sample store. -/
theorem C3_witness :
    ∃ R', handleGenerate sampleStore "bob" (some (.str "A")) none none 5 =
        (.updatedExisting (getKeyJ R' "slug") R',
          fun i => if i = sLower "bob" then some R' else sampleStore i) ∧
      updateData (some (.obj sampleR1))
        (.obj (optEntry "city" (some (.str "A")) ++ optEntry "interests" none ++
          optEntry "userBio" none)) 5 = .ok R' ∧
      getKeyJ R' "slug" = some (.str "bob-abc123") ∧
      (∀ p v, getPath (.obj sampleR1) p = some v →
        untouched (optEntry "city" (some (.str "A")) ++ optEntry "interests" none ++
          optEntry "userBio" none) p = true →
        pleads p ["timestamps", "updated"] = false → getPath R' p = some v) :=
  C3_generate_routes_to_update sampleStore "bob" (by decide) (some (.str "A")) none none
    sampleR1 [("created", .num 0), ("updated", .num 0)] 5 (by decide) (by decide)
    (by decide) (.str "bob-abc123") (by decide)

/-- C4 (counterexample): with a stored record and the AI binding missing,
`/api/refresh` answers an error — not the last-known-good record — though
storage is left unchanged. -/
theorem C4_counterexample :
    (handleRefresh sampleStore "bob" false (.ok (.null, .arr [])) none true
        (.null, .null) (.arr []) (.obj []) 99).1 =
      .error "Workers AI is required. Please ensure: 1) AI binding is configured in wrangler.toml with [ai] section, 2) Your Cloudflare account has Workers AI enabled, 3) You have redeployed after adding the binding." ∧
    (handleRefresh sampleStore "bob" false (.ok (.null, .arr [])) none true
        (.null, .null) (.arr []) (.obj []) 99).2 "bob" = some (.obj sampleR1) ∧
    (handleRefresh sampleStore "bob" false (.ok (.null, .arr [])) none true
        (.null, .null) (.arr []) (.obj []) 99).1 ≠ .ok (.obj sampleR1) := by
  exact ⟨by decide, by decide, by decide⟩

/-- C4 (amended): when the generative backend is unavailable during a
refresh request, the request fails with an error (a 500 at the Worker
boundary) and the stored record is left untouched — so subsequent reads keep
serving the last-known-good record, but the refresh response itself is an
error rather than that record. -/
theorem C4_refresh_ai_unavailable
    (store : String → Option JVal) (username : String) (hu : ¬ username = "")
    (forceAll : Bool) (github : Except String (JVal × JVal)) (r2 : Bool)
    (images : JVal × JVal) (news weather : JVal) (now : Int)
    (R : JVal) (hstore : store (sLower username) = some R) :
    (∃ e, handleRefresh store username forceAll github none r2 images news weather now
      = (.error e, store)) ∧
    (handleRefresh store username forceAll github none r2 images news weather now).2
      (sLower username) = some R := by
  have hmain : ∃ e, handleRefresh store username forceAll github none r2 images news weather
      now = (.error e, store) := by
    cases github with
    | error e =>
      exact ⟨e, by simp [handleRefresh, hu, hstore]⟩
    | ok g =>
      exact ⟨"Workers AI is required. Please ensure: 1) AI binding is configured in wrangler.toml with [ai] section, 2) Your Cloudflare account has Workers AI enabled, 3) You have redeployed after adding the binding.",
        by simp [handleRefresh, hu, hstore, generateAllAIContent]⟩
  obtain ⟨e, he⟩ := hmain
  exact ⟨⟨e, he⟩, by rw [he]; exact hstore⟩

/-- C4 witness: the amended theorem at the sample store. -/
theorem C4_witness :
    (∃ e, handleRefresh sampleStore "bob" false (.ok (.null, .arr [])) none true
      (.null, .null) (.arr []) (.obj []) 99 = (.error e, sampleStore)) ∧
    (handleRefresh sampleStore "bob" false (.ok (.null, .arr [])) none true
      (.null, .null) (.arr []) (.obj []) 99).2 (sLower "bob") = some (.obj sampleR1) :=
  C4_refresh_ai_unavailable sampleStore "bob" (by decide) false (.ok (.null, .arr []))
    true (.null, .null) (.arr []) (.obj []) 99 (.obj sampleR1) (by decide)

/-! ## Claim C6: bookmark replacement -/

theorem propOf_ok {v : JVal} (h : v ≠ .null) (k : String) :
    propOf v k = .ok (lookupKey k (spreadEntries v)) := by
  cases v with
  | null => exact absurd rfl h
  | bool b => rfl
  | num n => rfl
  | str s => rfl
  | arr xs => rfl
  | obj fs => rfl

/-- The input bookmark carries no usable id (`bm.id` is absent or falsy), so
the map generates one. -/
def lacksId (bm : JVal) : Bool :=
  match propOf bm "id" with
  | .ok o => jsFalsyOpt o
  | .error _ => false

theorem mapBookmark_ok (now : Int) (i : Nat) (bm : JVal) (h : bm ≠ .null) :
    ∃ o, mapBookmark now i bm = .ok o ∧
      getKeyJ o "order" = some (.num i) ∧
      (lacksId bm = true → getKeyJ o "id" = some (.str (genId now i))) := by
  refine ⟨.obj ([("id", jsOr (lookupKey "id" (spreadEntries bm)) (.str (genId now i)))] ++
    optEntry "name" (lookupKey "name" (spreadEntries bm)) ++
    optEntry "url" (lookupKey "url" (spreadEntries bm)) ++
    [("icon", jsOr (lookupKey "icon" (spreadEntries bm)) (.str "🔗")),
     ("order", .num i)]), ?_, ?_, ?_⟩
  · simp [mapBookmark, propOf_ok h, Bind.bind, Except.bind]
  · cases lookupKey "name" (spreadEntries bm) <;>
      cases lookupKey "url" (spreadEntries bm) <;>
        simp [optEntry, getKeyJ, lookupKey]
  · intro hl
    rw [lacksId, propOf_ok h] at hl
    have : jsOr (lookupKey "id" (spreadEntries bm)) (.str (genId now i)) =
        .str (genId now i) := by
      cases hid : lookupKey "id" (spreadEntries bm) with
      | none => rfl
      | some v =>
        rw [hid] at hl
        simp only [jsFalsyOpt] at hl
        simp [jsOr, hl]
    simp [getKeyJ, lookupKey, this]

theorem mapBookmarks_spec (now : Int) :
    ∀ (bms : List JVal) (i0 : Nat), (∀ bm ∈ bms, bm ≠ .null) →
      ∃ out, mapBookmarks now i0 bms = .ok out ∧ out.length = bms.length ∧
        (∀ j (hj : j < out.length),
          getKeyJ (out.get ⟨j, hj⟩) "order" = some (.num (i0 + j)) ∧
          (∀ (hb : j < bms.length), lacksId (bms.get ⟨j, hb⟩) = true →
            getKeyJ (out.get ⟨j, hj⟩) "id" = some (.str (genId now (i0 + j))))) := by
  intro bms
  induction bms with
  | nil =>
    intro i0 _
    refine ⟨[], rfl, rfl, ?_⟩
    intro j hj
    exact absurd hj (by simp)
  | cons bm rest ih =>
    intro i0 hnn
    obtain ⟨o, ho, hoord, hoid⟩ :=
      mapBookmark_ok now i0 bm (hnn bm (List.mem_cons_self bm rest))
    obtain ⟨out, hout, hlen, hidx⟩ :=
      ih (i0 + 1) (fun b hb => hnn b (List.mem_cons_of_mem _ hb))
    refine ⟨o :: out, ?_, by simp [hlen], ?_⟩
    · simp [mapBookmarks, ho, hout, Bind.bind, Except.bind]
    · intro j hj
      cases j with
      | zero =>
        refine ⟨by simpa using hoord, ?_⟩
        intro hb hl
        simpa using hoid (by simpa using hl)
      | succ j' =>
        have hj' : j' < out.length := by simpa using hj
        obtain ⟨h1, h2⟩ := hidx j' hj'
        have harith : i0 + 1 + j' = i0 + (j' + 1) := by omega
        refine ⟨?_, ?_⟩
        · rw [show ((o :: out).get ⟨j' + 1, hj⟩) = out.get ⟨j', hj'⟩ from rfl]
          have hcast : ((i0 + 1 : Nat) : Int) + (j' : Int) = (i0 : Int) + ((j' + 1 : Nat) : Int) := by
            push_cast
            ring
          rw [← hcast]
          exact h1
        · intro hb hl
          have hb' : j' < rest.length := by simpa using hb
          rw [show ((o :: out).get ⟨j' + 1, hj⟩) = out.get ⟨j', hj'⟩ from rfl, ← harith]
          exact h2 hb' (by simpa using hl)

/-- C6: replacing the bookmarks of an existing record stores exactly the
reindexed map of the input sequence — `order[i] = i` at every position, a
generated id `Date.now().toString(36) + i` for every input item whose id is
absent or falsy (distinct positions giving distinct ids), the whole stored
array replaced, and `timestamps.updated` stamped with the current time. -/
theorem C6_replace_bookmarks (rfs rtfs : List (String × JVal)) (bms : List JVal)
    (now : Int)
    (hts : lookupKey "timestamps" rfs = some (.obj rtfs))
    (hnn : ∀ bm ∈ bms, bm ≠ .null) :
    ∃ out, mapBookmarks now 0 bms = .ok out ∧
      updateBookmarks (some (.obj rfs)) (some (.arr bms)) now =
        .ok (.obj (setKey (setKey rfs "bookmarks" (.arr out)) "timestamps"
          (.obj (setKey rtfs "updated" (.num now))))) ∧
      out.length = bms.length ∧
      (∀ j (hj : j < out.length), getKeyJ (out.get ⟨j, hj⟩) "order" = some (.num j)) ∧
      (∀ j (hj : j < out.length) (hb : j < bms.length),
        lacksId (bms.get ⟨j, hb⟩) = true →
        getKeyJ (out.get ⟨j, hj⟩) "id" = some (.str (genId now j))) ∧
      (∀ i j : Nat, i ≠ j → genId now i ≠ genId now j) ∧
      getPath (.obj (setKey (setKey rfs "bookmarks" (.arr out)) "timestamps"
        (.obj (setKey rtfs "updated" (.num now))))) ["timestamps", "updated"] =
          some (.num now) := by
  obtain ⟨out, hout, hlen, hidx⟩ := mapBookmarks_spec now bms 0 hnn
  have hts' : lookupKey "timestamps" (setKey rfs "bookmarks" (.arr out)) =
      some (.obj rtfs) := by
    rw [lookupKey_setKey_ne _ _ (by decide : ("timestamps" : String) ≠ "bookmarks")]
    exact hts
  refine ⟨out, hout, ?_, hlen, ?_, ?_, ?_, getPath_bump_at now⟩
  · simp [updateBookmarks, jsFalsy, hout, Bind.bind, Except.bind,
      setTsUpdated_eq now hts']
  · intro j hj
    simpa using (hidx j hj).1
  · intro j hj hb hl
    simpa using (hidx j hj).2 hb hl
  · intro i j hij
    exact genId_inj now hij

/-- C6 witness: a two-element replacement — first bookmark with a falsy id,
second with a kept id — on the sample record at clock 99. -/
theorem C6_witness :
    ∃ out, mapBookmarks 99 0 [.obj [("name", .str "GitHub"), ("url", .str "g")],
        .obj [("id", .str "keep"), ("name", .str "Docs"), ("url", .str "d"),
          ("order", .num 7)]] = .ok out ∧
      updateBookmarks (some (.obj sampleR1))
        (some (.arr [.obj [("name", .str "GitHub"), ("url", .str "g")],
          .obj [("id", .str "keep"), ("name", .str "Docs"), ("url", .str "d"),
            ("order", .num 7)]])) 99 =
        .ok (.obj (setKey (setKey sampleR1 "bookmarks" (.arr out)) "timestamps"
          (.obj (setKey [("created", .num 0), ("updated", .num 0)] "updated"
            (.num 99))))) ∧
      out.length = 2 ∧
      (∀ j (hj : j < out.length), getKeyJ (out.get ⟨j, hj⟩) "order" = some (.num j)) ∧
      (∀ j (hj : j < out.length) (hb : j < (2 : Nat)),
        lacksId ([JVal.obj [("name", .str "GitHub"), ("url", .str "g")],
          .obj [("id", .str "keep"), ("name", .str "Docs"), ("url", .str "d"),
            ("order", .num 7)]].get ⟨j, hb⟩) = true →
        getKeyJ (out.get ⟨j, hj⟩) "id" = some (.str (genId 99 j))) ∧
      (∀ i j : Nat, i ≠ j → genId 99 i ≠ genId 99 j) ∧
      getPath (.obj (setKey (setKey sampleR1 "bookmarks" (.arr out)) "timestamps"
        (.obj (setKey [("created", .num 0), ("updated", .num 0)] "updated" (.num 99)))))
        ["timestamps", "updated"] = some (.num 99) :=
  C6_replace_bookmarks sampleR1 [("created", .num 0), ("updated", .num 0)]
    [.obj [("name", .str "GitHub"), ("url", .str "g")],
     .obj [("id", .str "keep"), ("name", .str "Docs"), ("url", .str "d"),
       ("order", .num 7)]] 99 (by decide)
    (by
      intro bm hbm
      simp only [List.mem_cons, List.not_mem_nil, or_false, List.mem_singleton] at hbm
      rcases hbm with rfl | rfl <;> decide)

/-! ## Claim C7: weather fallback chain -/

/-- The primary (Xiaomi) leg yields nothing: the city is classified
international (primary bypassed), the id table has no entry, the upstream
returned a bad status/payload, or it threw (the exception is swallowed). -/
def primaryMiss (cityIds : String → Option String)
    (xiaomiUp : Fetched (Option XiaomiCurrent)) (city : String) : Bool :=
  (INTERNATIONAL_CITIES.any fun c =>
    strIncludes (sTrim (sLower city)) c || strIncludes c (sTrim (sLower city))) ||
  (match fetchXiaomiWeather cityIds xiaomiUp city with
   | .thrown => true
   | .ok none => true
   | .ok (some _) => false)

theorem fetchWeather_primary_none (cityIds : String → Option String)
    (xiaomiUp : Fetched (Option XiaomiCurrent)) (wttrUp : Fetched (Option WttrData))
    (city : String) (hmiss : primaryMiss cityIds xiaomiUp city = true) :
    fetchWeather cityIds xiaomiUp wttrUp city =
      (match wttrUp with
       | .ok (some d) =>
         { city := jsOrStr d.areaName city
           temp := jsOrInt d.temp_C 22
           feels := jsOrInt d.feelsLikeC 23
           humidity := jsOrInt d.humidity 50
           wind := jsOrInt d.windspeedKmph 10
           desc := jsOrStr d.desc "晴"
           icon := getWeatherEmojiFromWttr d.weatherCode
           source := "wttr.in" }
       | _ =>
         { city := city
           temp := 22
           feels := 23
           humidity := 50
           wind := 10
           desc := "数据获取中"
           icon := "🌤️"
           source := "fallback" }) := by
  cases hint : (INTERNATIONAL_CITIES.any fun c =>
      strIncludes (sTrim (sLower city)) c || strIncludes c (sTrim (sLower city))) with
  | true => simp [fetchWeather, hint]
  | false =>
    rw [primaryMiss, hint] at hmiss
    simp only [Bool.false_or] at hmiss
    cases hfx : fetchXiaomiWeather cityIds xiaomiUp city with
    | thrown => simp [fetchWeather, hint, hfx]
    | ok r =>
      cases r with
      | none => simp [fetchWeather, hint, hfx]
      | some w =>
        rw [hfx] at hmiss
        cases hmiss

/-- C7: the weather fetch is a total function of its upstream outcomes (no
fault propagates); whenever the primary is bypassed or fails, a successful
secondary is returned as the artifact tagged `source: "wttr.in"`, and if
every source fails the fixed static default (22 °C / feels 23 / humidity 50
/ wind 10) tagged `source: "fallback"` is returned instead of raising. -/
theorem C7_weather_fallback (cityIds : String → Option String)
    (xiaomiUp : Fetched (Option XiaomiCurrent)) (wttrUp : Fetched (Option WttrData))
    (city : String) (hmiss : primaryMiss cityIds xiaomiUp city = true) :
    (∀ d, wttrUp = .ok (some d) →
      fetchWeather cityIds xiaomiUp wttrUp city =
        { city := jsOrStr d.areaName city
          temp := jsOrInt d.temp_C 22
          feels := jsOrInt d.feelsLikeC 23
          humidity := jsOrInt d.humidity 50
          wind := jsOrInt d.windspeedKmph 10
          desc := jsOrStr d.desc "晴"
          icon := getWeatherEmojiFromWttr d.weatherCode
          source := "wttr.in" } ∧
      (fetchWeather cityIds xiaomiUp wttrUp city).source = "wttr.in") ∧
    ((wttrUp = .thrown ∨ wttrUp = .ok none) →
      fetchWeather cityIds xiaomiUp wttrUp city =
        { city := city
          temp := 22
          feels := 23
          humidity := 50
          wind := 10
          desc := "数据获取中"
          icon := "🌤️"
          source := "fallback" }) := by
  constructor
  · intro d hw
    subst hw
    have hres := fetchWeather_primary_none cityIds xiaomiUp (.ok (some d)) city hmiss
    exact ⟨hres, by rw [hres]⟩
  · intro hw
    rcases hw with rfl | rfl
    · exact fetchWeather_primary_none cityIds xiaomiUp .thrown city hmiss
    · exact fetchWeather_primary_none cityIds xiaomiUp (.ok none) city hmiss

/-- Concrete wttr.in payload used by the C7 witness. -/
def wttrSample : WttrData :=
  { areaName := some "FooTown"
    temp_C := some 30
    feelsLikeC := some 31
    humidity := some 40
    windspeedKmph := some 5
    desc := some "Sunny"
    weatherCode := some 113 }

/-- C7 witness: city `"Foo"` (domestic-classified but absent from the id
table, so the primary returns `null`), secondary succeeding with a concrete
payload. -/
theorem C7_witness :
    (∀ d, (Fetched.ok (some wttrSample)) = .ok (some d) →
      fetchWeather (fun _ => none) (.ok none) (.ok (some wttrSample)) "Foo" =
        { city := jsOrStr d.areaName "Foo"
          temp := jsOrInt d.temp_C 22
          feels := jsOrInt d.feelsLikeC 23
          humidity := jsOrInt d.humidity 50
          wind := jsOrInt d.windspeedKmph 10
          desc := jsOrStr d.desc "晴"
          icon := getWeatherEmojiFromWttr d.weatherCode
          source := "wttr.in" } ∧
      (fetchWeather (fun _ => none) (.ok none)
        (.ok (some wttrSample)) "Foo").source = "wttr.in") ∧
    (((Fetched.ok (some wttrSample)) = .thrown ∨
        (Fetched.ok (some wttrSample)) = .ok none) →
      fetchWeather (fun _ => none) (.ok none) (.ok (some wttrSample)) "Foo" =
        { city := "Foo"
          temp := 22
          feels := 23
          humidity := 50
          wind := 10
          desc := "数据获取中"
          icon := "🌤️"
          source := "fallback" }) :=
  C7_weather_fallback (fun _ => none) (.ok none) (.ok (some wttrSample)) "Foo" (by decide)

/-! ## Claim C8: stale-weather read refresh touches only the weather fields -/

/-- The update payload `handleGetUser` builds when only weather is stale:
`{cachedWeather: w, timestamps: {weatherUpdated: now}}`. -/
def weatherPayload (w : JVal) (now : Int) : List (String × JVal) :=
  [("cachedWeather", w), ("timestamps", .obj [("weatherUpdated", .num now)])]

theorem ttl_weather_eq : CACHE_TTL_WEATHER = 1800000 := by norm_num [CACHE_TTL_WEATHER]

theorem ttl_news_eq : CACHE_TTL_NEWS = 7200000 := by norm_num [CACHE_TTL_NEWS]

/-- C8: on a read request for a record whose weather is 31 minutes old while
its news is fresh, the store receives exactly one update: `cachedWeather` is
merged with the fetched artifact, `timestamps.weatherUpdated` and the
always-bumped `timestamps.updated` are set to now, and every other key path
— `cachedNews` and `timestamps.newsUpdated` in particular — is unchanged. -/
theorem C8_stale_weather_frame
    (store : String → Option JVal) (slug : String) (rfs rtfs : List (String × JVal))
    (w n : JVal) (now tsn : Int)
    (hseg : ¬ firstSeg slug = "")
    (hstore : store (sLower (firstSeg slug)) = some (.obj rfs))
    (hslug : lookupKey "slug" rfs = some (.str slug))
    (hts : lookupKey "timestamps" rfs = some (.obj rtfs))
    (cw : JVal) (hcw : lookupKey "cachedWeather" rfs = some cw)
    (hcwt : jsFalsy cw = false)
    (hwu : lookupKey "weatherUpdated" rtfs = some (.num (now - 31 * 60 * 1000)))
    (cn : JVal) (hcn : lookupKey "cachedNews" rfs = some cn)
    (hcnt : jsFalsy cn = false)
    (hnu : lookupKey "newsUpdated" rtfs = some (.num tsn))
    (hfresh : ¬ (now - tsn > CACHE_TTL_NEWS))
    (hwfw : wfJ w = true) :
    ∃ R', handleGetUser store slug w n now =
        (.ok (jsAssign (.obj rfs) (weatherPayload w now)),
         fun i => if i = sLower (firstSeg slug) then some R' else store i) ∧
      updateData (some (.obj rfs)) (.obj (weatherPayload w now)) now = .ok R' ∧
      getPath R' ["timestamps", "weatherUpdated"] = some (.num now) ∧
      getPath R' ["timestamps", "updated"] = some (.num now) ∧
      getKeyJ R' "cachedNews" = some cn ∧
      getPath R' ["timestamps", "newsUpdated"] = some (.num tsn) ∧
      (∀ p v, getPath (.obj rfs) p = some v →
        untouched (weatherPayload w now) p = true →
        pleads p ["timestamps", "updated"] = false → getPath R' p = some v) := by
  have hstaleW : staleCat (.obj rfs) "cachedWeather" "weatherUpdated"
      CACHE_TTL_WEATHER now = .ok true := by
    rw [staleCat_eval CACHE_TTL_WEATHER now hcw hcwt hts hwu]
    have : now - (now - 31 * 60 * 1000) > CACHE_TTL_WEATHER := by
      rw [ttl_weather_eq]
      omega
    simp [this, ttl_weather_eq]
  have hstaleN : staleCat (.obj rfs) "cachedNews" "newsUpdated"
      CACHE_TTL_NEWS now = .ok false := by
    rw [staleCat_eval CACHE_TTL_NEWS now hcn hcnt hts hnu]
    simp [hfresh]
  have hwfU : wfJ (.obj (weatherPayload w now)) = true := by
    simp [weatherPayload, wfJ, wfFields, distinctKeys, hwfw]
  have htsu : tsObjOk (weatherPayload w now) = true := rfl
  obtain ⟨mt, hmt⟩ := merged_ts_obj (wfJ_obj_nodup hwfU) hts htsu
  have hM : deepMerge (.obj rfs) (.obj (weatherPayload w now)) =
      .obj (mergeFields rfs (weatherPayload w now)) := by
    rw [deepMerge_obj, spreadEntries_obj]
  have hupd : updateData (some (.obj rfs)) (.obj (weatherPayload w now)) now =
      .ok (.obj (setKey (mergeFields rfs (weatherPayload w now)) "timestamps"
        (.obj (setKey mt "updated" (.num now))))) := by
    simp only [updateData, hM]
    exact setTsUpdated_eq now hmt
  have hu1 : setKey (setKey [] "cachedWeather" w) "timestamps"
      (.obj (setKey (spreadOpt (lookupKey "timestamps" ([] : List (String × JVal))))
        "weatherUpdated" (.num now))) = weatherPayload w now := rfl
  refine ⟨_, ?_, hupd, ?_, getPath_bump_at now, ?_, ?_, ?_⟩
  · -- the handler runs the stale-weather branch and pushes exactly this update
    have hupd' := hupd
    simp only [weatherPayload] at hupd'
    simp only [handleGetUser, hseg, if_neg hseg, hstore, hslug, getKeyJ, hstaleW, hstaleN,
      hu1, updateDataOp, hupd']
    simp [weatherPayload, hupd']
  · -- timestamps.weatherUpdated = now: a scalar path of the payload
    apply getPath_bump now hmt
    · apply getPath_merge_src _ _ _ hwfU _ _ rfs
      · simp [weatherPayload, getPath, lookupKey]
      · rfl
    · decide
  · -- cachedNews preserved
    have hp : getPath (.obj (setKey (mergeFields rfs (weatherPayload w now)) "timestamps"
        (.obj (setKey mt "updated" (.num now))))) ["cachedNews"] = some cn := by
      apply getPath_bump now hmt
      · apply getPath_merge_untouched _ _ _ _ hwfU
        · simp [getPath, hcn]
        · rfl
      · decide
    rw [getPath_single] at hp
    simpa [getKeyJ] using hp
  · -- timestamps.newsUpdated preserved
    apply getPath_bump now hmt
    · apply getPath_merge_untouched _ _ _ _ hwfU
      · simp [getPath, hts, hnu]
      · rfl
    · decide
  · intro p v hp hun hnc
    exact getPath_bump now hmt p v
      (getPath_merge_untouched p _ rfs v hwfU hp hun) hnc

/-- Concrete record, store and weather artifact for the C8 witness:
weather 31 minutes old, news 1 minute old, clock 1700000000000. -/
def c8Rec : List (String × JVal) :=
  [("slug", .str "bob-abc123"), ("city", .str "X"),
   ("cachedWeather", .obj [("temp", .num 20)]),
   ("cachedNews", .arr [.str "n1"]),
   ("timestamps", .obj [("created", .num 0), ("updated", .num 0),
     ("weatherUpdated", .num (1700000000000 - 31 * 60 * 1000)),
     ("newsUpdated", .num (1700000000000 - 60000))])]

def c8Store : String → Option JVal :=
  fun i => if i = "bob" then some (.obj c8Rec) else none

def c8W : JVal := .obj [("temp", .num 25), ("source", .str "wttr.in")]

/-- C8 witness: the frame theorem run on the concrete record. -/
theorem C8_witness :
    ∃ R', handleGetUser c8Store "bob-abc123" c8W (.arr []) 1700000000000 =
        (.ok (jsAssign (.obj c8Rec) (weatherPayload c8W 1700000000000)),
         fun i => if i = sLower (firstSeg "bob-abc123") then some R' else c8Store i) ∧
      updateData (some (.obj c8Rec)) (.obj (weatherPayload c8W 1700000000000))
        1700000000000 = .ok R' ∧
      getPath R' ["timestamps", "weatherUpdated"] = some (.num 1700000000000) ∧
      getPath R' ["timestamps", "updated"] = some (.num 1700000000000) ∧
      getKeyJ R' "cachedNews" = some (.arr [.str "n1"]) ∧
      getPath R' ["timestamps", "newsUpdated"] = some (.num (1700000000000 - 60000)) ∧
      (∀ p v, getPath (.obj c8Rec) p = some v →
        untouched (weatherPayload c8W 1700000000000) p = true →
        pleads p ["timestamps", "updated"] = false → getPath R' p = some v) :=
  C8_stale_weather_frame c8Store "bob-abc123" c8Rec
    [("created", .num 0), ("updated", .num 0),
     ("weatherUpdated", .num (1700000000000 - 31 * 60 * 1000)),
     ("newsUpdated", .num (1700000000000 - 60000))]
    c8W (.arr []) 1700000000000 (1700000000000 - 60000)
    (by decide) (by decide) (by decide) (by decide)
    (.obj [("temp", .num 20)]) (by decide) (by decide) (by decide)
    (.arr [.str "n1"]) (by decide) (by decide) (by decide)
    (by decide) (by decide)

/-! ## Claim C9: hyphenated usernames are unreachable by slug lookup -/

theorem takeWhile_append_stop {p : Char → Bool} :
    ∀ (l1 l2 : List Char), (∃ c ∈ l1, p c = false) →
      List.takeWhile p (l1 ++ l2) = List.takeWhile p l1 := by
  intro l1
  induction l1 with
  | nil =>
    intro l2 h
    obtain ⟨c, hc, _⟩ := h
    cases hc
  | cons c cs ih =>
    intro l2 h
    cases hpc : p c with
    | false => simp [List.takeWhile, hpc]
    | true =>
      obtain ⟨c', hc', hp'⟩ := h
      have hc'cs : c' ∈ cs := by
        cases List.mem_cons.mp hc' with
        | inl he => rw [he] at hp'; rw [hp'] at hpc; cases hpc
        | inr hm => exact hm
      simp [List.takeWhile, hpc, ih l2 ⟨c', hc'cs, hp'⟩]

theorem takeWhile_length_lt {p : Char → Bool} :
    ∀ (l : List Char), (∃ c ∈ l, p c = false) → (List.takeWhile p l).length < l.length := by
  intro l
  induction l with
  | nil =>
    intro h
    obtain ⟨c, hc, _⟩ := h
    cases hc
  | cons c cs ih =>
    intro h
    cases hpc : p c with
    | false => simp [List.takeWhile, hpc]
    | true =>
      obtain ⟨c', hc', hp'⟩ := h
      have hc'cs : c' ∈ cs := by
        cases List.mem_cons.mp hc' with
        | inl he => rw [he] at hp'; rw [hp'] at hpc; cases hpc
        | inr hm => exact hm
      simpa [List.takeWhile, hpc] using ih ⟨c', hc'cs, hp'⟩

theorem generateSlug_data (username r : String) :
    (generateSlug username r).data = (sLower username).data ++ ('-' :: r.data) := by
  simp [generateSlug, String.data_append]

/-- A hyphen survives lowercasing. -/
theorem hyphen_mem_sLower {s : String} (h : '-' ∈ s.data) : '-' ∈ (sLower s).data := by
  have : lowerChar '-' ∈ (s.data.map lowerChar) := List.mem_map_of_mem lowerChar h
  simpa [sLower] using this

theorem firstSeg_generateSlug {username : String} (r : String)
    (h : '-' ∈ username.data) :
    firstSeg (generateSlug username r) =
      String.mk (List.takeWhile (fun c => decide (¬ c = '-')) (sLower username).data) := by
  rw [firstSeg]
  rw [generateSlug_data]
  rw [takeWhile_append_stop _ _ ⟨'-', hyphen_mem_sLower h, by decide⟩]

/-- Sample hyphen-username record/store for the C9 counterexample: username
`"-abc"` (leading hyphen), identity `"-abc"`, slug `"-abc-x1y2z3"`. -/
def c9Rec : List (String × JVal) :=
  [("slug", .str "-abc-x1y2z3"), ("timestamps", .obj [("updated", .num 0)])]

def c9Store : String → Option JVal :=
  fun i => if i = "-abc" then some (.obj c9Rec) else none

/-- C9 (counterexample): for the hyphen-bearing username `"-abc"` the record
exists, yet the slug lookup fails with `"Invalid slug"` — not with
`"User not found"` as the claim states for every hyphenated username. -/
theorem C9_counterexample :
    c9Store (sLower "-abc") = some (.obj c9Rec) ∧
    generateSlug "-abc" "x1y2z3" = "-abc-x1y2z3" ∧
    (handleGetUser c9Store "-abc-x1y2z3" .null .null 0).1 = .error "Invalid slug" ∧
    (Except.error "Invalid slug" : Except String JVal) ≠ .error "User not found" := by
  exact ⟨by decide, by decide, by decide, by decide⟩

/-- C9 (amended): for every record stored under a hyphen-bearing username,
every get-by-slug lookup of its own slug fails even though the record
exists: the handler recovers the identity as the slug text before the first
hyphen, which never equals the full lowercased username the record was
stored under.  The failure reads `"Invalid slug"` when that first segment is
empty (username beginning with a hyphen) and `"User not found"` otherwise
(given that whatever record lives under the truncated identity does not
carry this slug). -/
theorem C9_hyphen_username_unreachable
    (store : String → Option JVal) (username r : String)
    (hhy : '-' ∈ username.data)
    (R wv nv : JVal) (now : Int)
    (hstore : store (sLower username) = some R)
    (hslugR : getKeyJ R "slug" = some (.str (generateSlug username r)))
    (hother : ∀ R₂, store (sLower (firstSeg (generateSlug username r))) = some R₂ →
      ¬ getKeyJ R₂ "slug" = some (.str (generateSlug username r))) :
    (∃ e, handleGetUser store (generateSlug username r) wv nv now = (.error e, store) ∧
      (e = "Invalid slug" ∨ e = "User not found")) ∧
    sLower (firstSeg (generateSlug username r)) ≠ sLower username := by
  constructor
  · by_cases hseg : firstSeg (generateSlug username r) = ""
    · exact ⟨"Invalid slug", by simp [handleGetUser, hseg], Or.inl rfl⟩
    · cases hR2 : store (sLower (firstSeg (generateSlug username r))) with
      | none =>
        exact ⟨"User not found", by simp [handleGetUser, hseg, hR2], Or.inr rfl⟩
      | some R₂ =>
        refine ⟨"User not found", ?_, Or.inr rfl⟩
        have hne := hother R₂ hR2
        simp [handleGetUser, hseg, hR2, hne]
  · intro heq
    have hlen := congrArg (fun s : String => s.data.length) heq
    rw [firstSeg_generateSlug r hhy] at hlen
    simp only [sLower, List.length_map] at hlen
    have hlt := takeWhile_length_lt (p := fun c => decide (¬ c = '-'))
      (sLower username).data ⟨'-', hyphen_mem_sLower hhy, by decide⟩
    simp only [sLower, List.length_map] at hlt
    omega

/-- C9 witness: username `"john-doe"`, record stored under identity
`"john-doe"` with slug `"john-doe-x1y2z3"`; nothing is stored under the
truncated identity `"john"`, so the lookup 404s. -/
theorem C9_witness :
    (∃ e, handleGetUser
        (fun i => if i = "john-doe" then
          some (.obj [("slug", .str "john-doe-x1y2z3"),
            ("timestamps", .obj [("updated", .num 0)])]) else none)
        (generateSlug "john-doe" "x1y2z3") .null .null 0 =
      (.error e,
        fun i => if i = "john-doe" then
          some (.obj [("slug", .str "john-doe-x1y2z3"),
            ("timestamps", .obj [("updated", .num 0)])]) else none) ∧
      (e = "Invalid slug" ∨ e = "User not found")) ∧
    sLower (firstSeg (generateSlug "john-doe" "x1y2z3")) ≠ sLower "john-doe" :=
  C9_hyphen_username_unreachable
    (fun i => if i = "john-doe" then
      some (.obj [("slug", .str "john-doe-x1y2z3"),
        ("timestamps", .obj [("updated", .num 0)])]) else none)
    "john-doe" "x1y2z3" (by decide)
    (.obj [("slug", .str "john-doe-x1y2z3"), ("timestamps", .obj [("updated", .num 0)])])
    .null .null 0 (by decide) (by decide)
    (by
      intro R₂ hR₂
      have : sLower (firstSeg (generateSlug "john-doe" "x1y2z3")) = "john" := by decide
      rw [this] at hR₂
      simp at hR₂)
